import Mathlib

/-!
# Foot-placement validity and clearance evaluator (`validity_checker_feet.cpp`)

A shallow embedding of `art_planner::ValidityCheckerFeet`.

Modelling conventions.

* Scalars (`double`, `dReal`, the pose scalar) are exact rationals; rounding is not modelled.
  The statements proved below are therefore boolean or structural (verdicts, probe logs, the
  expressions the constructor assigns), or evaluate the cost arithmetic at integer or zero
  weights, where `double` arithmetic is exact. No statement is made whose truth depends on
  the rounding of `double` operations.
* `Pose3` is an affine transform: a 3×3 linear block and a translation, composed by the
  usual product of affine maps.
* The file-scope statics (`kCostCenter`, ..., `kMaxCost`, `d_pose`) live in `Globals`, which is
  threaded through every operation.  `Globals` also carries two instrumentation logs:
  the poses handed to `boxIsValidAtPose` and the pose lists handed to `checkCollision`.
* The collision primitive `HeightMapBoxChecker::checkCollision` is not part of this
  translation unit: it is a parameter `cc`, a function of the checker object (box
  dimensions and height snapshot) and of the pose list, returning `true` for a collision.
* The terrain map (`grid_map`) is a bounds predicate plus named elevation layers.
* Dereferencing the unbound (null) map handle has no defined result: operations return
  `none` there.  The mutex is not modelled: execution is sequential.
-/

namespace art_planner

/-! ## Geometry -/

/-- Three scalars: a position, or the reach of a foot. -/
structure Vec3 where
  x : ℚ
  y : ℚ
  z : ℚ
deriving DecidableEq

/-- A 3×3 block, entries by row and column. -/
structure Mat3 where
  m00 : ℚ
  m01 : ℚ
  m02 : ℚ
  m10 : ℚ
  m11 : ℚ
  m12 : ℚ
  m20 : ℚ
  m21 : ℚ
  m22 : ℚ
deriving DecidableEq

/-- The identity block. -/
def Mat3.identity : Mat3 := ⟨1, 0, 0, 0, 1, 0, 0, 0, 1⟩

/-- Product of two blocks. -/
def Mat3.mul (a b : Mat3) : Mat3 :=
  ⟨a.m00 * b.m00 + a.m01 * b.m10 + a.m02 * b.m20,
   a.m00 * b.m01 + a.m01 * b.m11 + a.m02 * b.m21,
   a.m00 * b.m02 + a.m01 * b.m12 + a.m02 * b.m22,
   a.m10 * b.m00 + a.m11 * b.m10 + a.m12 * b.m20,
   a.m10 * b.m01 + a.m11 * b.m11 + a.m12 * b.m21,
   a.m10 * b.m02 + a.m11 * b.m12 + a.m12 * b.m22,
   a.m20 * b.m00 + a.m21 * b.m10 + a.m22 * b.m20,
   a.m20 * b.m01 + a.m21 * b.m11 + a.m22 * b.m21,
   a.m20 * b.m02 + a.m21 * b.m12 + a.m22 * b.m22⟩

/-- A block applied to a vector. -/
def Mat3.mulVec (a : Mat3) (v : Vec3) : Vec3 :=
  ⟨a.m00 * v.x + a.m01 * v.y + a.m02 * v.z,
   a.m10 * v.x + a.m11 * v.y + a.m12 * v.z,
   a.m20 * v.x + a.m21 * v.y + a.m22 * v.z⟩

/-- Componentwise sum. -/
def Vec3.add (u v : Vec3) : Vec3 := ⟨u.x + v.x, u.y + v.y, u.z + v.z⟩

/-- The pose type `Pose3`: linear block and translation of an affine transform. -/
structure Pose3 where
  linear : Mat3
  translation : Vec3
deriving DecidableEq

/-- Composition `a * b` of two transforms (`b` is applied first). -/
def Pose3.mul (a b : Pose3) : Pose3 :=
  ⟨a.linear.mul b.linear, (a.linear.mulVec b.translation).add a.translation⟩

instance : Mul Pose3 := ⟨Pose3.mul⟩

/-- Modelled from the spec: `Pose3FromXYZ` of `art_planner/utils.h` is not among the sources;
the spec composes poses "by right-multiplication to derive offset poses", so it is the pure
translation by `(x, y, z)`. -/
def Pose3FromXYZ (x y z : ℚ) : Pose3 := ⟨Mat3.identity, ⟨x, y, z⟩⟩

/-! ## Collaborators -/

/-- One row of the checker's 3×4 row-major rotation array. -/
structure Row4 where
  c0 : ℚ
  c1 : ℚ
  c2 : ℚ
  c3 : ℚ
deriving DecidableEq

/-- The checker's pose representation `HeightMapBoxChecker::dPose`: three origin entries and
a rotation array of twelve entries read as three rows of four. -/
structure dPose where
  origin : Vec3
  rotation0 : Row4
  rotation1 : Row4
  rotation2 : Row4
deriving DecidableEq

/-- The terrain map: the bounds test `isInside` and its layers, by name. -/
structure TerrainMap where
  isInside : ℚ → ℚ → Bool
  layer : String → ℚ → ℚ → ℚ

/-- The collision checker object: the box it was built with and its height snapshot
(absent until the first `setHeightField`). -/
structure HeightMapBoxChecker where
  length : ℚ
  width : ℚ
  height : ℚ
  height_field : Option (ℚ → ℚ → ℚ)

/-- Modelled from the spec: `HeightMapBoxChecker::setHeightField` is not among the sources;
it "pushes the currently-bound map's elevation layer into the checker". -/
def HeightMapBoxChecker.setHeightField (c : HeightMapBoxChecker) (map : TerrainMap)
    (name : String) : HeightMapBoxChecker :=
  { c with height_field := some (map.layer name) }

/-- The type of the collision primitive `checkCollision` (`true` = collision). -/
abbrev CollisionFn := HeightMapBoxChecker → List dPose → Bool

/-! ## Configuration -/

/-- The record `params.robot.feet.offset`. -/
structure Params.Offset where
  x : ℚ
  y : ℚ

/-- The record `params.robot.feet`. -/
structure Params.Feet where
  reach : Vec3
  offset : Params.Offset

/-- The record `params.robot`. -/
structure Params.Robot where
  feet : Params.Feet

/-- The record `params.planner`. -/
structure Params.Planner where
  unknown_space_untraversable : Bool

/-- The record `params.objectives.clearance`. -/
structure Params.Clearance where
  enable : Bool
  cost_center : ℚ
  cost_lon : ℚ
  cost_lat : ℚ
  cost_diag : ℚ

/-- The record `params.objectives`. -/
structure Params.Objectives where
  clearance : Params.Clearance

/-- The configuration object read by the evaluator. -/
structure Params where
  robot : Params.Robot
  planner : Params.Planner
  objectives : Params.Objectives

/-! ## File-scope state -/

/-- The number of longitudinal splits. -/
def kNLongSplit : ℕ := 3

/-- The number of lateral splits. -/
def kNLatSplit : ℕ := 3

/-- The mutable file-scope statics, shared by every evaluator of the process, and the two
instrumentation logs. -/
structure Globals where
  kCostCenter : ℚ
  kCostLon : ℚ
  kCostLat : ℚ
  kCostDiag : ℚ
  kMaxCost : ℚ
  d_pose : dPose
  probes : List Pose3
  checks : List (List dPose)

/-- The statics at program start: zero-initialised, nothing logged. -/
def Globals.initial : Globals :=
  { kCostCenter := 0, kCostLon := 0, kCostLat := 0, kCostDiag := 0, kMaxCost := 0,
    d_pose := ⟨⟨0, 0, 0⟩, ⟨0, 0, 0, 0⟩, ⟨0, 0, 0, 0⟩, ⟨0, 0, 0, 0⟩⟩,
    probes := [], checks := [] }

/-! ## The evaluator -/

/-- The members of `ValidityCheckerFeet`. -/
structure ValidityCheckerFeet where
  params_ : Params
  box_length_ : ℚ
  box_width_ : ℚ
  checker_ : HeightMapBoxChecker
  traversability_map_ : Option TerrainMap

/-- The constructor `ValidityCheckerFeet::ValidityCheckerFeet(params)`. -/
def ValidityCheckerFeet.ctor (params : Params) (g : Globals) :
    ValidityCheckerFeet × Globals :=
  if params.objectives.clearance.enable then
    let box_length := params.robot.feet.reach.x / (kNLongSplit : ℚ)
    let box_width := params.robot.feet.reach.y / (kNLatSplit : ℚ)
    let g1 : Globals :=
      { g with
        kCostCenter := params.objectives.clearance.cost_center
        kCostLon := params.objectives.clearance.cost_lon
        kCostLat := params.objectives.clearance.cost_lat
        kCostDiag := params.objectives.clearance.cost_diag }
    let g2 : Globals :=
      { g1 with
        kMaxCost := 4 * (g1.kCostCenter + 2 * g1.kCostLon + 2 * g1.kCostLat + 4 * g1.kCostDiag) }
    ({ params_ := params, box_length_ := box_length, box_width_ := box_width,
       checker_ := ⟨box_length, box_width, params.robot.feet.reach.z, none⟩,
       traversability_map_ := none }, g2)
  else
    let box_length := params.robot.feet.reach.x
    let box_width := params.robot.feet.reach.y
    ({ params_ := params, box_length_ := box_length, box_width_ := box_width,
       checker_ := ⟨box_length, box_width, params.robot.feet.reach.z, none⟩,
       traversability_map_ := none }, g)

/-- The method `setMap`. -/
def ValidityCheckerFeet.setMap (self : ValidityCheckerFeet) (map : Option TerrainMap) :
    ValidityCheckerFeet :=
  { self with traversability_map_ := map }

/-- The method `hasMap`. -/
def ValidityCheckerFeet.hasMap (self : ValidityCheckerFeet) : Bool :=
  self.traversability_map_.isSome

/-- The method `updateHeightField`. -/
def ValidityCheckerFeet.updateHeightField (self : ValidityCheckerFeet) :
    Option ValidityCheckerFeet :=
  match self.traversability_map_ with
  | none => none
  | some map => some { self with checker_ := self.checker_.setHeightField map "elevation_masked" }

/-- The scratch pose after lines 64-68: origin and the top-left 3×3 of the rotation array are
overwritten from `pose`, the fourth column keeps what the scratch held. -/
def writeScratch (d : dPose) (pose : Pose3) : dPose :=
  { origin := ⟨pose.translation.x, pose.translation.y, pose.translation.z⟩
    rotation0 := ⟨pose.linear.m00, pose.linear.m01, pose.linear.m02, d.rotation0.c3⟩
    rotation1 := ⟨pose.linear.m10, pose.linear.m11, pose.linear.m12, d.rotation1.c3⟩
    rotation2 := ⟨pose.linear.m20, pose.linear.m21, pose.linear.m22, d.rotation2.c3⟩ }

/-- The method `boxIsValidAtPose`. -/
def ValidityCheckerFeet.boxIsValidAtPose (cc : CollisionFn) (self : ValidityCheckerFeet)
    (pose : Pose3) (g : Globals) : Option (Bool × Globals) :=
  match self.traversability_map_ with
  | none => none
  | some map =>
    let g0 : Globals := { g with probes := g.probes ++ [pose] }
    if !map.isInside pose.translation.x pose.translation.y then
      some (!self.params_.planner.unknown_space_untraversable, g0)
    else
      let d := writeScratch g0.d_pose pose
      some (cc self.checker_ [d], { g0 with d_pose := d, checks := g0.checks ++ [[d]] })

/-- The loop of `boxesAreValidAtPoses`, from the poses still to visit and the current
`valid`. -/
def ValidityCheckerFeet.boxesLoop (cc : CollisionFn) (self : ValidityCheckerFeet) :
    List Pose3 → Bool → Globals → Option (Bool × Globals)
  | [], valid, g => some (valid, g)
  | pose :: rest, valid, g =>
    match self.boxIsValidAtPose cc pose g with
    | none => none
    | some (b, g1) =>
      let valid1 := valid && b
      if !valid1 then some (valid1, g1) else ValidityCheckerFeet.boxesLoop cc self rest valid1 g1

/-- The method `boxesAreValidAtPoses`. -/
def ValidityCheckerFeet.boxesAreValidAtPoses (cc : CollisionFn) (self : ValidityCheckerFeet)
    (poses : List Pose3) (g : Globals) : Option (Bool × Globals) :=
  self.boxesLoop cc poses true g

/-- The four foot poses built at the head of `getClearance` and of `isValid`. -/
def ValidityCheckerFeet.footPoses (self : ValidityCheckerFeet) (pose : Pose3) : List Pose3 :=
  [pose * Pose3FromXYZ self.params_.robot.feet.offset.x self.params_.robot.feet.offset.y 0,
   pose * Pose3FromXYZ self.params_.robot.feet.offset.x (-self.params_.robot.feet.offset.y) 0,
   pose * Pose3FromXYZ (-self.params_.robot.feet.offset.x) self.params_.robot.feet.offset.y 0,
   pose * Pose3FromXYZ (-self.params_.robot.feet.offset.x) (-self.params_.robot.feet.offset.y) 0]

/-- One line `if (!boxIsValidAtPose(p)) cost += k;` of `getClearance`, `k` read from the
statics. -/
def ValidityCheckerFeet.addIfInvalid (cc : CollisionFn) (self : ValidityCheckerFeet)
    (p : Pose3) (k : Globals → ℚ) (cost : ℚ) (g : Globals) : Option (ℚ × Globals) :=
  match self.boxIsValidAtPose cc p g with
  | none => none
  | some (b, g1) => some (if !b then cost + k g1 else cost, g1)

/-- The body of the loop of `getClearance` for one foot pose (lines 94-106). -/
def ValidityCheckerFeet.clearanceBody (cc : CollisionFn) (self : ValidityCheckerFeet)
    (foot_pose : Pose3) (cost : ℚ) (g : Globals) : Option (ℚ × Globals) :=
  (self.addIfInvalid cc foot_pose Globals.kCostCenter cost g).bind fun r1 =>
  (self.addIfInvalid cc (foot_pose * Pose3FromXYZ self.box_length_ 0 0)
    Globals.kCostLon r1.1 r1.2).bind fun r2 =>
  (self.addIfInvalid cc (foot_pose * Pose3FromXYZ (-self.box_length_) 0 0)
    Globals.kCostLon r2.1 r2.2).bind fun r3 =>
  (self.addIfInvalid cc (foot_pose * Pose3FromXYZ 0 self.box_width_ 0)
    Globals.kCostLat r3.1 r3.2).bind fun r4 =>
  (self.addIfInvalid cc (foot_pose * Pose3FromXYZ 0 (-self.box_width_) 0)
    Globals.kCostLat r4.1 r4.2).bind fun r5 =>
  (self.addIfInvalid cc (foot_pose * Pose3FromXYZ self.box_length_ self.box_width_ 0)
    Globals.kCostDiag r5.1 r5.2).bind fun r6 =>
  (self.addIfInvalid cc (foot_pose * Pose3FromXYZ self.box_length_ (-self.box_width_) 0)
    Globals.kCostDiag r6.1 r6.2).bind fun r7 =>
  (self.addIfInvalid cc (foot_pose * Pose3FromXYZ (-self.box_length_) self.box_width_ 0)
    Globals.kCostDiag r7.1 r7.2).bind fun r8 =>
  self.addIfInvalid cc (foot_pose * Pose3FromXYZ (-self.box_length_) (-self.box_width_) 0)
    Globals.kCostDiag r8.1 r8.2

/-- The loop of `getClearance` over the foot poses still to visit. -/
def ValidityCheckerFeet.clearanceLoop (cc : CollisionFn) (self : ValidityCheckerFeet) :
    List Pose3 → ℚ → Globals → Option (ℚ × Globals)
  | [], cost, g => some (cost, g)
  | foot_pose :: rest, cost, g =>
    match self.clearanceBody cc foot_pose cost g with
    | none => none
    | some (cost1, g1) => ValidityCheckerFeet.clearanceLoop cc self rest cost1 g1

/-- The method `getClearance`. -/
def ValidityCheckerFeet.getClearance (cc : CollisionFn) (self : ValidityCheckerFeet)
    (pose : Pose3) (g : Globals) : Option (ℚ × Globals) :=
  match self.clearanceLoop cc (self.footPoses pose) 0 g with
  | none => none
  | some (cost, g1) => some (g1.kMaxCost - cost, g1)

/-- The pose probed at lines 130-132 of `isValid` for the multipliers `long_mult` and
`lat_mult`. -/
def ValidityCheckerFeet.gridPose (self : ValidityCheckerFeet) (foot_pose : Pose3)
    (long_mult lat_mult : ℤ) : Pose3 :=
  foot_pose * Pose3FromXYZ (self.box_length_ * (long_mult : ℚ))
    (self.box_width_ * (lat_mult : ℚ)) 0

/-- The inner `j` loop of `isValid` with `n` iterations left; it yields `foot_valid`. -/
def ValidityCheckerFeet.latLoop (cc : CollisionFn) (self : ValidityCheckerFeet)
    (foot_pose : Pose3) (long_mult : ℤ) :
    ℕ → ℤ → Bool → Globals → Option (Bool × Globals)
  | 0, _, foot_valid, g => some (foot_valid, g)
  | n + 1, lat_mult, foot_valid, g =>
    match self.boxIsValidAtPose cc (self.gridPose foot_pose long_mult lat_mult) g with
    | none => none
    | some (b, g1) =>
      let foot_valid1 := foot_valid || b
      if foot_valid1 then some (foot_valid1, g1)
      else ValidityCheckerFeet.latLoop cc self foot_pose long_mult n (lat_mult + 1) foot_valid1 g1

/-- The `i` loop of `isValid` with `n` iterations left; it yields `foot_valid`. -/
def ValidityCheckerFeet.longLoop (cc : CollisionFn) (self : ValidityCheckerFeet)
    (foot_pose : Pose3) : ℕ → ℤ → Bool → Globals → Option (Bool × Globals)
  | 0, _, foot_valid, g => some (foot_valid, g)
  | n + 1, long_mult, foot_valid, g =>
    match self.latLoop cc foot_pose long_mult kNLatSplit (-1) foot_valid g with
    | none => none
    | some (foot_valid1, g1) =>
      if foot_valid1 then some (foot_valid1, g1)
      else ValidityCheckerFeet.longLoop cc self foot_pose n (long_mult + 1) foot_valid1 g1

/-- The loop of `isValid` over the foot poses still to visit (graded mode). -/
def ValidityCheckerFeet.footLoop (cc : CollisionFn) (self : ValidityCheckerFeet) :
    List Pose3 → Globals → Option (Bool × Globals)
  | [], g => some (true, g)
  | foot_pose :: rest, g =>
    match self.longLoop cc foot_pose kNLongSplit (-1) false g with
    | none => none
    | some (foot_valid, g1) =>
      if !foot_valid then some (false, g1) else ValidityCheckerFeet.footLoop cc self rest g1

/-- The method `isValid`. -/
def ValidityCheckerFeet.isValid (cc : CollisionFn) (self : ValidityCheckerFeet)
    (pose : Pose3) (g : Globals) : Option (Bool × Globals) :=
  if self.params_.objectives.clearance.enable then
    self.footLoop cc (self.footPoses pose) g
  else
    self.boxesAreValidAtPoses cc (self.footPoses pose) g

/-! ## Derived notions used in the statements -/

/-- The verdict `boxIsValidAtPose` gives for `pose` when called from the statics `g`
(`false` where the call has no result). -/
def ValidityCheckerFeet.boxVerdict (cc : CollisionFn) (self : ValidityCheckerFeet)
    (g : Globals) (pose : Pose3) : Bool :=
  match self.boxIsValidAtPose cc pose g with
  | none => false
  | some r => r.1

/-- Two states of the statics that differ at most in the cells `boxIsValidAtPose` writes:
the weights, `kMaxCost` and the fourth column of the scratch rotation are the same. -/
def Globals.Same (g g1 : Globals) : Prop :=
  g1.kCostCenter = g.kCostCenter ∧ g1.kCostLon = g.kCostLon ∧ g1.kCostLat = g.kCostLat ∧
  g1.kCostDiag = g.kCostDiag ∧ g1.kMaxCost = g.kMaxCost ∧
  g1.d_pose.rotation0.c3 = g.d_pose.rotation0.c3 ∧
  g1.d_pose.rotation1.c3 = g.d_pose.rotation1.c3 ∧
  g1.d_pose.rotation2.c3 = g.d_pose.rotation2.c3

/-- The nine poses `getClearance` probes for one foot pose, in the order of lines 95-106,
each with the weight charged when it is invalid: `center` for the foot pose itself, `lon`
for the two longitudinal points, `lat` for the two lateral points, `diag` for the four
diagonal points. -/
def ValidityCheckerFeet.stencil (self : ValidityCheckerFeet) (foot_pose : Pose3)
    (center lon lat diag : ℚ) : List (Pose3 × ℚ) :=
  [(foot_pose, center),
   (foot_pose * Pose3FromXYZ self.box_length_ 0 0, lon),
   (foot_pose * Pose3FromXYZ (-self.box_length_) 0 0, lon),
   (foot_pose * Pose3FromXYZ 0 self.box_width_ 0, lat),
   (foot_pose * Pose3FromXYZ 0 (-self.box_width_) 0, lat),
   (foot_pose * Pose3FromXYZ self.box_length_ self.box_width_ 0, diag),
   (foot_pose * Pose3FromXYZ self.box_length_ (-self.box_width_) 0, diag),
   (foot_pose * Pose3FromXYZ (-self.box_length_) self.box_width_ 0, diag),
   (foot_pose * Pose3FromXYZ (-self.box_length_) (-self.box_width_) 0, diag)]

/-- The quantity `accumulatedInvalidWeight` of the specification, in its words: the sum, over
the four feet and the nine stencil points of each foot, of the weight of every stencil point
for which `boxIsValidAtPose` is false. -/
def ValidityCheckerFeet.accumulatedInvalidWeight (cc : CollisionFn)
    (self : ValidityCheckerFeet) (g : Globals) (pose : Pose3) (center lon lat diag : ℚ) : ℚ :=
  ((self.footPoses pose).map fun foot =>
    ((self.stencil foot center lon lat diag).map fun pw =>
      if (self.boxIsValidAtPose cc pw.1 g).map Prod.fst = some false then pw.2 else 0).sum).sum

/-- The charge `getClearance` adds for one foot: the weights, as the statics `g` hold them,
of the points of its stencil whose verdict is `false`. -/
def ValidityCheckerFeet.footCharge (cc : CollisionFn) (self : ValidityCheckerFeet)
    (g : Globals) (foot : Pose3) : ℚ :=
  ((self.stencil foot g.kCostCenter g.kCostLon g.kCostLat g.kCostDiag).map fun pw =>
    if self.boxVerdict cc g pw.1 = false then pw.2 else 0).sum

/-- The value `maxCost` of the specification for given weights. -/
def maxCost (center lon lat diag : ℚ) : ℚ := 4 * (center + 2 * lon + 2 * lat + 4 * diag)

/-- The elements of a list up to and including the first one at which `v` holds (the whole
list when `v` holds at none): what a loop visits that leaves right after the first hit. -/
def uptoFirst {α : Type} (v : α → Bool) : List α → List α
  | [] => []
  | a :: l => if v a then [a] else a :: uptoFirst v l

/-- The poses the inner `j` loop of `isValid` runs through in `n` iterations from
`lat_mult`, when it never leaves early. -/
def ValidityCheckerFeet.rowPoses (self : ValidityCheckerFeet) (foot_pose : Pose3)
    (long_mult : ℤ) : ℕ → ℤ → List Pose3
  | 0, _ => []
  | n + 1, lat_mult =>
    self.gridPose foot_pose long_mult lat_mult ::
      ValidityCheckerFeet.rowPoses self foot_pose long_mult n (lat_mult + 1)

/-- The poses the `i` loop of `isValid` runs through in `n` iterations from `long_mult`,
when it never leaves early: row after row. -/
def ValidityCheckerFeet.gridPoses (self : ValidityCheckerFeet) (foot_pose : Pose3) :
    ℕ → ℤ → List Pose3
  | 0, _ => []
  | n + 1, long_mult =>
    self.rowPoses foot_pose long_mult kNLatSplit (-1) ++
      ValidityCheckerFeet.gridPoses self foot_pose n (long_mult + 1)

/-- The grid of one foot: the poses of the loops of lines 127-139 started as `isValid` starts
them. -/
def ValidityCheckerFeet.gridList (self : ValidityCheckerFeet) (foot_pose : Pose3) :
    List Pose3 :=
  self.gridPoses foot_pose kNLongSplit (-1)

/-! ## Concrete inputs -/

/-- A map that contains every position; its layers are flat. -/
def mapEverywhere : TerrainMap := ⟨fun _ _ => true, fun _ _ _ => 0⟩

/-- A map that contains no position. -/
def mapNowhere : TerrainMap := ⟨fun _ _ => false, fun _ _ _ => 0⟩

/-- The square map `-1 ≤ x ≤ 1`, `-1 ≤ y ≤ 1`, flat. -/
def mapUnitSquare : TerrainMap :=
  ⟨fun x y => decide (-1 ≤ x) && decide (x ≤ 1) && decide (-1 ≤ y) && decide (y ≤ 1),
   fun _ _ _ => 0⟩

/-- A checker that reports a collision for every query. -/
def ccCollision : CollisionFn := fun _ _ => true

/-- A checker that reports no collision for any query. -/
def ccFree : CollisionFn := fun _ _ => false

/-- A checker that reports a collision exactly for boxes whose origin has `x > 0`. -/
def ccFront : CollisionFn := fun _ ds => ds.any fun d => decide (0 < d.origin.x)

/-- The body pose at the origin, axes aligned. -/
def poseOrigin : Pose3 := Pose3FromXYZ 0 0 0

/-- A configuration: reach 3 × 3 × 1, foot offsets (10, 5), all four weights 1. -/
def paramsUnit (enable unknown : Bool) : Params :=
  { robot := ⟨⟨⟨3, 3, 1⟩, ⟨10, 5⟩⟩⟩
    planner := ⟨unknown⟩
    objectives := ⟨⟨enable, 1, 1, 1, 1⟩⟩ }

/-- A configuration: reach 3 × 3 × 1, foot offsets (10, 5), all four weights 2. -/
def paramsTwo (enable unknown : Bool) : Params :=
  { robot := ⟨⟨⟨3, 3, 1⟩, ⟨10, 5⟩⟩⟩
    planner := ⟨unknown⟩
    objectives := ⟨⟨enable, 2, 2, 2, 2⟩⟩ }

/-- A configuration: reach 3/10 × 3/10 × 1, foot offsets (1, 1/2), all four weights 1,
unknown space traversable. -/
def paramsNear (enable : Bool) : Params :=
  { robot := ⟨⟨⟨3 / 10, 3 / 10, 1⟩, ⟨1, 1 / 2⟩⟩⟩
    planner := ⟨false⟩
    objectives := ⟨⟨enable, 1, 1, 1, 1⟩⟩ }

/-- The body pose at (3/2, 0, 0), axes aligned: outside `mapUnitSquare`. -/
def poseEdge : Pose3 := Pose3FromXYZ (3 / 2) 0 0

/-- The body pose at (100, 0, 0), axes aligned: far outside `mapUnitSquare`. -/
def poseFar : Pose3 := Pose3FromXYZ 100 0 0

/-! ## Basic facts on `boxIsValidAtPose` -/

/-- Composing two axis-aligned translations adds their offsets. -/
theorem Pose3FromXYZ_mul (a b c x y z : ℚ) :
    Pose3FromXYZ a b c * Pose3FromXYZ x y z = Pose3FromXYZ (a + x) (b + y) (c + z) := by
  show Pose3.mul _ _ = _
  simp only [Pose3.mul, Pose3FromXYZ, Mat3.mul, Mat3.mulVec, Vec3.add, Mat3.identity,
    Pose3.mk.injEq, Mat3.mk.injEq, Vec3.mk.injEq]
  refine ⟨⟨?_, ?_, ?_, ?_, ?_, ?_, ?_, ?_, ?_⟩, ?_, ?_, ?_⟩ <;> ring

theorem Globals.Same.refl (g : Globals) : g.Same g := by
  simp [Globals.Same]

theorem Globals.Same.trans {g g1 g2 : Globals} (h : g.Same g1) (h1 : g1.Same g2) :
    g.Same g2 := by
  obtain ⟨a1, a2, a3, a4, a5, a6, a7, a8⟩ := h
  obtain ⟨b1, b2, b3, b4, b5, b6, b7, b8⟩ := h1
  exact ⟨b1.trans a1, b2.trans a2, b3.trans a3, b4.trans a4, b5.trans a5, b6.trans a6,
    b7.trans a7, b8.trans a8⟩

theorem writeScratch_congr {d d1 : dPose} (h0 : d1.rotation0.c3 = d.rotation0.c3)
    (h1 : d1.rotation1.c3 = d.rotation1.c3) (h2 : d1.rotation2.c3 = d.rotation2.c3)
    (pose : Pose3) : writeScratch d1 pose = writeScratch d pose := by
  simp [writeScratch, h0, h1, h2]

/-- The verdict only depends on the cells of the statics that no query writes. -/
theorem boxVerdict_congr (cc : CollisionFn) (self : ValidityCheckerFeet) {g g1 : Globals}
    (h : g.Same g1) (pose : Pose3) :
    self.boxVerdict cc g1 pose = self.boxVerdict cc g pose := by
  obtain ⟨-, -, -, -, -, h0, h1, h2⟩ := h
  unfold ValidityCheckerFeet.boxVerdict ValidityCheckerFeet.boxIsValidAtPose
  cases self.traversability_map_ with
  | none => rfl
  | some map =>
    by_cases hin : map.isInside pose.translation.x pose.translation.y = true
    · simp [hin, writeScratch_congr h0 h1 h2]
    · simp [hin]

/-- With a map bound, `boxIsValidAtPose` has a result: its verdict, and statics that differ
from the former ones only in the scratch cells it writes and in the log of probes. -/
theorem boxIsValidAtPose_run (cc : CollisionFn) (self : ValidityCheckerFeet) (m : TerrainMap)
    (hm : self.traversability_map_ = some m) (pose : Pose3) (g : Globals) :
    ∃ g1, self.boxIsValidAtPose cc pose g = some (self.boxVerdict cc g pose, g1) ∧
      g.Same g1 ∧ g1.probes = g.probes ++ [pose] := by
  unfold ValidityCheckerFeet.boxVerdict ValidityCheckerFeet.boxIsValidAtPose
  rw [hm]
  by_cases hin : m.isInside pose.translation.x pose.translation.y = true
  · simp [hin, Globals.Same, writeScratch]
  · simp [hin, Globals.Same]

/-! ## C1, C2: the single-box query -/

/-- C1 (as stated, refuted): at the origin pose, inside `mapEverywhere`, the checker
`ccCollision` reports a collision for the query `boxIsValidAtPose` makes, and
`boxIsValidAtPose` returns `true`, not `false`. -/
theorem boxIsValidAtPose_collision_counterexample :
    mapEverywhere.isInside poseOrigin.translation.x poseOrigin.translation.y = true ∧
    ccCollision ((ValidityCheckerFeet.ctor (paramsUnit false false) Globals.initial).1).checker_
      [writeScratch Globals.initial.d_pose poseOrigin] = true ∧
    ((((ValidityCheckerFeet.ctor (paramsUnit false false) Globals.initial).1).setMap
        (some mapEverywhere)).boxIsValidAtPose ccCollision poseOrigin Globals.initial).map
      Prod.fst = some true := by
  refine ⟨rfl, rfl, ?_⟩
  simp [ValidityCheckerFeet.boxIsValidAtPose, ValidityCheckerFeet.setMap, mapEverywhere,
    ccCollision]

/-- C1 (amended): for a pose whose horizontal position is inside the bound map,
`boxIsValidAtPose` returns the verdict of `checkCollision` on the one-element list holding
the scratch pose written from `pose`, unchanged: `true` when the checker reports a collision,
`false` when it reports none; and that query is the one call logged. -/
theorem boxIsValidAtPose_inside (cc : CollisionFn) (self : ValidityCheckerFeet)
    (m : TerrainMap) (pose : Pose3) (g : Globals)
    (hin : m.isInside pose.translation.x pose.translation.y = true) :
    ∃ g1, (self.setMap (some m)).boxIsValidAtPose cc pose g =
        some (cc self.checker_ [writeScratch g.d_pose pose], g1) ∧
      g1.checks = g.checks ++ [[writeScratch g.d_pose pose]] ∧
      (cc self.checker_ [writeScratch g.d_pose pose] = true →
        ((self.setMap (some m)).boxIsValidAtPose cc pose g).map Prod.fst = some true) ∧
      (cc self.checker_ [writeScratch g.d_pose pose] = false →
        ((self.setMap (some m)).boxIsValidAtPose cc pose g).map Prod.fst = some false) := by
  simp [ValidityCheckerFeet.boxIsValidAtPose, ValidityCheckerFeet.setMap, hin]

/-- Witness of C1 (amended) at the origin pose inside `mapEverywhere`. -/
theorem boxIsValidAtPose_inside_witness :
    mapEverywhere.isInside poseOrigin.translation.x poseOrigin.translation.y = true ∧
    ∃ g1, ((ValidityCheckerFeet.ctor (paramsUnit false false) Globals.initial).1.setMap
        (some mapEverywhere)).boxIsValidAtPose ccFree poseOrigin Globals.initial =
        some (false, g1) :=
  ⟨rfl, (boxIsValidAtPose_inside ccFree
    (ValidityCheckerFeet.ctor (paramsUnit false false) Globals.initial).1 mapEverywhere
    poseOrigin Globals.initial rfl).imp fun _ h => h.1⟩

/-- C2: for a pose whose horizontal position is outside the bound map, `boxIsValidAtPose`
returns `!unknown_space_untraversable` and makes no call to the checker: the statics are
left as they were except for the log of probes, so the result does not depend on the checker
function, on the checker object or on the content of the map. -/
theorem boxIsValidAtPose_outside (cc : CollisionFn) (self : ValidityCheckerFeet)
    (m : TerrainMap) (pose : Pose3) (g : Globals)
    (hout : m.isInside pose.translation.x pose.translation.y = false) :
    (self.setMap (some m)).boxIsValidAtPose cc pose g =
      some (!self.params_.planner.unknown_space_untraversable,
        { g with probes := g.probes ++ [pose] }) := by
  simp [ValidityCheckerFeet.boxIsValidAtPose, ValidityCheckerFeet.setMap, hout]

/-- Witness of C2 at the origin pose, outside `mapNowhere`, with the flag set. -/
theorem boxIsValidAtPose_outside_witness :
    mapNowhere.isInside poseOrigin.translation.x poseOrigin.translation.y = false ∧
    ((ValidityCheckerFeet.ctor (paramsUnit false true) Globals.initial).1.setMap
        (some mapNowhere)).boxIsValidAtPose ccCollision poseOrigin Globals.initial =
      some (false, { Globals.initial with probes := [poseOrigin] }) :=
  ⟨rfl, boxIsValidAtPose_outside ccCollision
    (ValidityCheckerFeet.ctor (paramsUnit false true) Globals.initial).1 mapNowhere
    poseOrigin Globals.initial rfl⟩

/-! ## C4: `boxesAreValidAtPoses` -/

theorem boxVerdict_funext (cc : CollisionFn) (self : ValidityCheckerFeet) {g g1 : Globals}
    (h : g.Same g1) : self.boxVerdict cc g1 = self.boxVerdict cc g :=
  funext fun pose => boxVerdict_congr cc self h pose

/-- The loop of `boxesAreValidAtPoses`, entered with `valid = true`: its result is the
conjunction of the verdicts, and it probes the poses up to and including the first invalid
one. -/
theorem boxesLoop_run (cc : CollisionFn) (self : ValidityCheckerFeet) (m : TerrainMap)
    (hm : self.traversability_map_ = some m) (poses : List Pose3) :
    ∀ g : Globals, ∃ g1,
      self.boxesLoop cc poses true g = some (poses.all (self.boxVerdict cc g), g1) ∧
      g.Same g1 ∧
      g1.probes = g.probes ++
        poses.take ((poses.takeWhile (self.boxVerdict cc g)).length + 1) := by
  induction poses with
  | nil => intro g; exact ⟨g, rfl, Globals.Same.refl g, by simp⟩
  | cons pose rest ih =>
    intro g
    obtain ⟨g1, hrun, hsame, hlog⟩ := boxIsValidAtPose_run cc self m hm pose g
    cases hv : self.boxVerdict cc g pose with
    | false =>
      refine ⟨g1, ?_, hsame, ?_⟩
      · simp [ValidityCheckerFeet.boxesLoop, hrun, hv]
      · simp [hlog, hv, List.takeWhile]
    | true =>
      obtain ⟨g2, hrun2, hsame2, hlog2⟩ := ih g1
      refine ⟨g2, ?_, hsame.trans hsame2, ?_⟩
      · simp [ValidityCheckerFeet.boxesLoop, hrun, hv, hrun2, boxVerdict_funext cc self hsame]
      · simp [hlog2, hlog, hv, List.takeWhile, boxVerdict_funext cc self hsame]

/-- C4: with a map bound, `boxesAreValidAtPoses` returns the conjunction of the verdicts of
`boxIsValidAtPose` over the sequence: `true` on the empty sequence, `false` on a sequence
holding an invalid pose. The poses it hands to `boxIsValidAtPose` are, in order, the prefix
of the sequence up to and including the first invalid pose, and no other. -/
theorem boxesAreValidAtPoses_conjunction_upto (cc : CollisionFn)
    (self : ValidityCheckerFeet) (m : TerrainMap) (poses : List Pose3) (g : Globals) :
    ∃ g1, (self.setMap (some m)).boxesAreValidAtPoses cc poses g =
        some (poses.all ((self.setMap (some m)).boxVerdict cc g), g1) ∧
      g1.probes = g.probes ++
        poses.take ((poses.takeWhile ((self.setMap (some m)).boxVerdict cc g)).length + 1) ∧
      (self.setMap (some m)).boxesAreValidAtPoses cc [] g = some (true, g) ∧
      ((∃ p ∈ poses, (self.setMap (some m)).boxVerdict cc g p = false) →
        ((self.setMap (some m)).boxesAreValidAtPoses cc poses g).map Prod.fst = some false) := by
  obtain ⟨g1, hrun, -, hlog⟩ := boxesLoop_run cc (self.setMap (some m)) m rfl poses g
  refine ⟨g1, hrun, hlog, rfl, ?_⟩
  rintro ⟨p, hp, hv⟩
  have hall : poses.all ((self.setMap (some m)).boxVerdict cc g) = false := by
    rw [List.all_eq_false]
    exact ⟨p, hp, by simp [hv]⟩
  simp [ValidityCheckerFeet.boxesAreValidAtPoses, hrun, hall]

/-! ## C5: the grid search of `isValid` -/

/-- The inner loop of the grid search: it has a result, and `foot_valid` is set at its
exit iff it was set at its entry or one of the `n` probes from `lat_mult` on is valid. -/
theorem latLoop_run (cc : CollisionFn) (self : ValidityCheckerFeet) (m : TerrainMap)
    (hm : self.traversability_map_ = some m) (foot : Pose3) (long : ℤ) (n : ℕ) :
    ∀ (lat : ℤ) (fv : Bool) (g : Globals), ∃ b g1,
      self.latLoop cc foot long n lat fv g = some (b, g1) ∧ g.Same g1 ∧
      (b = true ↔ fv = true ∨
        ∃ k : ℕ, k < n ∧ self.boxVerdict cc g (self.gridPose foot long (lat + k)) = true) := by
  induction n with
  | zero => intro lat fv g; exact ⟨fv, g, rfl, Globals.Same.refl g, by simp⟩
  | succ n ih =>
    intro lat fv g
    obtain ⟨g1, hrun, hsame, -⟩ :=
      boxIsValidAtPose_run cc self m hm (self.gridPose foot long lat) g
    by_cases hstop : (fv || self.boxVerdict cc g (self.gridPose foot long lat)) = true
    · refine ⟨true, g1, ?_, hsame, ?_⟩
      · simp [ValidityCheckerFeet.latLoop, hrun, hstop]
      · simp only [true_iff]
        rcases Bool.or_eq_true _ _ ▸ hstop with h | h
        · exact Or.inl h
        · exact Or.inr ⟨0, Nat.succ_pos n, by simpa using h⟩
    · have hfv : fv = false := by
        cases fv <;> simp_all
      have hv : self.boxVerdict cc g (self.gridPose foot long lat) = false := by
        cases hb : self.boxVerdict cc g (self.gridPose foot long lat) <;> simp_all
      obtain ⟨b, g2, hrun2, hsame2, hiff⟩ := ih (lat + 1) false g1
      refine ⟨b, g2, ?_, hsame.trans hsame2, ?_⟩
      · simp [ValidityCheckerFeet.latLoop, hrun, hfv, hv, hrun2]
      · rw [hiff, hfv, boxVerdict_funext cc self hsame]
        constructor
        · rintro (h | ⟨k, hk, hval⟩)
          · exact absurd h (by simp)
          · refine Or.inr ⟨k + 1, Nat.succ_lt_succ hk, ?_⟩
            have : lat + ((k + 1 : ℕ) : ℤ) = lat + 1 + (k : ℤ) := by push_cast; ring
            rw [this]; exact hval
        · rintro (h | ⟨k, hk, hval⟩)
          · exact absurd h (by simp)
          · cases k with
            | zero => simp [hv] at hval
            | succ k =>
              refine Or.inr ⟨k, Nat.lt_of_succ_lt_succ hk, ?_⟩
              have : lat + ((k + 1 : ℕ) : ℤ) = lat + 1 + (k : ℤ) := by push_cast; ring
              rw [this] at hval; exact hval

/-- The outer loop of the grid search: it has a result, and `foot_valid` is set at its
exit iff it was set at its entry or a probe of one of the `n` rows from `long_mult` on is
valid. -/
theorem longLoop_run (cc : CollisionFn) (self : ValidityCheckerFeet) (m : TerrainMap)
    (hm : self.traversability_map_ = some m) (foot : Pose3) (n : ℕ) :
    ∀ (long : ℤ) (fv : Bool) (g : Globals), ∃ b g1,
      self.longLoop cc foot n long fv g = some (b, g1) ∧ g.Same g1 ∧
      (b = true ↔ fv = true ∨
        ∃ i : ℕ, i < n ∧ ∃ j : ℕ, j < kNLatSplit ∧
          self.boxVerdict cc g (self.gridPose foot (long + i) (-1 + j)) = true) := by
  induction n with
  | zero => intro long fv g; exact ⟨fv, g, rfl, Globals.Same.refl g, by simp⟩
  | succ n ih =>
    intro long fv g
    obtain ⟨b1, g1, hrun, hsame, hiff⟩ := latLoop_run cc self m hm foot long kNLatSplit (-1) fv g
    cases hb1 : b1 with
    | true =>
      refine ⟨true, g1, ?_, hsame, ?_⟩
      · simp [ValidityCheckerFeet.longLoop, hrun, hb1]
      · simp only [true_iff]
        rcases hiff.mp hb1 with h | ⟨j, hj, hval⟩
        · exact Or.inl h
        · exact Or.inr ⟨0, Nat.succ_pos n, j, hj, by simpa using hval⟩
    | false =>
      have hnone : ¬ (fv = true ∨ ∃ k : ℕ, k < kNLatSplit ∧
          self.boxVerdict cc g (self.gridPose foot long (-1 + k)) = true) := by
        rw [← hiff, hb1]; simp
      obtain ⟨b, g2, hrun2, hsame2, hiff2⟩ := ih (long + 1) false g1
      refine ⟨b, g2, ?_, hsame.trans hsame2, ?_⟩
      · simp [ValidityCheckerFeet.longLoop, hrun, hb1, hrun2]
      · rw [hiff2, boxVerdict_funext cc self hsame]
        constructor
        · rintro (h | ⟨i, hi, j, hj, hval⟩)
          · exact absurd h (by simp)
          · refine Or.inr ⟨i + 1, Nat.succ_lt_succ hi, j, hj, ?_⟩
            have : long + ((i + 1 : ℕ) : ℤ) = long + 1 + (i : ℤ) := by push_cast; ring
            rw [this]; exact hval
        · rintro (h | ⟨i, hi, j, hj, hval⟩)
          · exact absurd (Or.inl h) hnone
          · cases i with
            | zero =>
              exact absurd (Or.inr ⟨j, hj, by simpa using hval⟩) hnone
            | succ i =>
              refine Or.inr ⟨i, Nat.lt_of_succ_lt_succ hi, j, hj, ?_⟩
              have : long + ((i + 1 : ℕ) : ℤ) = long + 1 + (i : ℤ) := by push_cast; ring
              rw [this] at hval; exact hval

/-- The loop over the feet in graded mode: it has a result, which is `true` iff every foot
has a valid probe among the rows and columns of its grid. -/
theorem footLoop_run (cc : CollisionFn) (self : ValidityCheckerFeet) (m : TerrainMap)
    (hm : self.traversability_map_ = some m) (feet : List Pose3) :
    ∀ g : Globals, ∃ b g1,
      self.footLoop cc feet g = some (b, g1) ∧ g.Same g1 ∧
      (b = true ↔ ∀ foot ∈ feet, ∃ i : ℕ, i < kNLongSplit ∧ ∃ j : ℕ, j < kNLatSplit ∧
          self.boxVerdict cc g (self.gridPose foot (-1 + i) (-1 + j)) = true) := by
  induction feet with
  | nil => intro g; exact ⟨true, g, rfl, Globals.Same.refl g, by simp⟩
  | cons foot rest ih =>
    intro g
    obtain ⟨b1, g1, hrun, hsame, hiff⟩ := longLoop_run cc self m hm foot kNLongSplit (-1) false g
    cases hb1 : b1 with
    | false =>
      refine ⟨false, g1, ?_, hsame, ?_⟩
      · simp [ValidityCheckerFeet.footLoop, hrun, hb1]
      · have hnone := hiff.not.mp (by simp [hb1])
        constructor
        · intro h; exact absurd h (by simp)
        · intro h
          exact absurd (Or.inr (h foot (List.mem_cons_self _ _))) hnone
    | true =>
      obtain ⟨b, g2, hrun2, hsame2, hiff2⟩ := ih g1
      refine ⟨b, g2, ?_, hsame.trans hsame2, ?_⟩
      · simp [ValidityCheckerFeet.footLoop, hrun, hb1, hrun2]
      · rw [hiff2, boxVerdict_funext cc self hsame]
        constructor
        · intro h f hf
          rcases List.mem_cons.mp hf with rfl | hf
          · rcases hiff.mp hb1 with h0 | h0
            · exact absurd h0 (by simp)
            · exact h0
          · exact h f hf
        · intro h f hf
          exact h f (List.mem_cons_of_mem _ hf)

/-- With a map bound, the verdict is `true` exactly when `boxIsValidAtPose` returns `true`. -/
theorem boxVerdict_eq_true_iff (cc : CollisionFn) (self : ValidityCheckerFeet) (m : TerrainMap)
    (hm : self.traversability_map_ = some m) (g : Globals) (pose : Pose3) :
    self.boxVerdict cc g pose = true ↔
      (self.boxIsValidAtPose cc pose g).map Prod.fst = some true := by
  obtain ⟨g1, hrun, -, -⟩ := boxIsValidAtPose_run cc self m hm pose g
  simp [hrun]

/-- With a map bound, the verdict is `false` exactly when `boxIsValidAtPose` returns
`false`. -/
theorem boxVerdict_eq_false_iff (cc : CollisionFn) (self : ValidityCheckerFeet) (m : TerrainMap)
    (hm : self.traversability_map_ = some m) (g : Globals) (pose : Pose3) :
    self.boxVerdict cc g pose = false ↔
      (self.boxIsValidAtPose cc pose g).map Prod.fst = some false := by
  obtain ⟨g1, hrun, -, -⟩ := boxIsValidAtPose_run cc self m hm pose g
  simp [hrun]

/-- The multipliers `-1 + i`, `i < 3`, are the members of `[-1, 0, 1]`. -/
theorem exists_mult_iff (P : ℤ → Prop) :
    (∃ i : ℕ, i < 3 ∧ P (-1 + i)) ↔ ∃ i ∈ ([-1, 0, 1] : List ℤ), P i := by
  constructor
  · rintro ⟨i, hi, h⟩
    interval_cases i
    · exact ⟨-1, by simp, by simpa using h⟩
    · exact ⟨0, by simp, by simpa using h⟩
    · exact ⟨1, by simp, by simpa using h⟩
  · rintro ⟨i, hi, h⟩
    simp only [List.mem_cons, List.mem_singleton, List.not_mem_nil, or_false] at hi
    rcases hi with rfl | rfl | rfl
    · exact ⟨0, by decide, by simpa using h⟩
    · exact ⟨1, by decide, by simpa using h⟩
    · exact ⟨2, by decide, by simpa using h⟩

/-- C5: in graded mode, with a map bound, `isValid` has a result for every body pose, and
the result is `true` iff each of the four foot poses has a grid offset
`(box_length * i, box_width * j, 0)`, `i` and `j` in `{-1, 0, 1}`, at which
`boxIsValidAtPose` returns `true`: the early exits do not change the result. -/
theorem isValid_graded_iff (cc : CollisionFn) (self : ValidityCheckerFeet) (m : TerrainMap)
    (pose : Pose3) (g : Globals) (hen : self.params_.objectives.clearance.enable = true) :
    ∃ b g1, (self.setMap (some m)).isValid cc pose g = some (b, g1) ∧
      (b = true ↔ ∀ foot ∈ (self.setMap (some m)).footPoses pose,
        ∃ i ∈ ([-1, 0, 1] : List ℤ), ∃ j ∈ ([-1, 0, 1] : List ℤ),
          ((self.setMap (some m)).boxIsValidAtPose cc
            (foot * Pose3FromXYZ (self.box_length_ * (i : ℚ)) (self.box_width_ * (j : ℚ)) 0)
            g).map Prod.fst = some true) := by
  obtain ⟨b, g1, hrun, -, hiff⟩ :=
    footLoop_run cc (self.setMap (some m)) m rfl ((self.setMap (some m)).footPoses pose) g
  refine ⟨b, g1, ?_, ?_⟩
  · have hen1 : (self.setMap (some m)).params_.objectives.clearance.enable = true := hen
    simp [ValidityCheckerFeet.isValid, hen1, hrun]
  · rw [hiff]
    refine forall_congr' fun foot => forall_congr' fun _ => ?_
    rw [show kNLongSplit = 3 from rfl, show kNLatSplit = 3 from rfl,
      exists_mult_iff fun i => ∃ j : ℕ, j < 3 ∧
        (self.setMap (some m)).boxVerdict cc g
          ((self.setMap (some m)).gridPose foot i (-1 + j)) = true]
    refine exists_congr fun i => and_congr_right fun _ => ?_
    rw [exists_mult_iff fun j =>
        (self.setMap (some m)).boxVerdict cc g
          ((self.setMap (some m)).gridPose foot i j) = true]
    refine exists_congr fun j => and_congr_right fun _ => ?_
    rw [boxVerdict_eq_true_iff cc (self.setMap (some m)) m rfl]
    rfl

/-- Witness of C5: the graded evaluator built from `paramsUnit`, on `mapEverywhere`. -/
theorem isValid_graded_iff_witness :
    (ValidityCheckerFeet.ctor (paramsUnit true false)
      Globals.initial).1.params_.objectives.clearance.enable = true ∧
    ∃ b g1, ((ValidityCheckerFeet.ctor (paramsUnit true false) Globals.initial).1.setMap
        (some mapEverywhere)).isValid ccFront poseOrigin Globals.initial = some (b, g1) ∧
      (b = true ↔ ∀ foot ∈ ((ValidityCheckerFeet.ctor (paramsUnit true false)
          Globals.initial).1.setMap (some mapEverywhere)).footPoses poseOrigin,
        ∃ i ∈ ([-1, 0, 1] : List ℤ), ∃ j ∈ ([-1, 0, 1] : List ℤ),
          (((ValidityCheckerFeet.ctor (paramsUnit true false) Globals.initial).1.setMap
            (some mapEverywhere)).boxIsValidAtPose ccFront
            (foot * Pose3FromXYZ
              ((ValidityCheckerFeet.ctor (paramsUnit true false)
                Globals.initial).1.box_length_ * (i : ℚ))
              ((ValidityCheckerFeet.ctor (paramsUnit true false)
                Globals.initial).1.box_width_ * (j : ℚ)) 0)
            Globals.initial).map Prod.fst = some true) :=
  ⟨rfl, isValid_graded_iff ccFront (ValidityCheckerFeet.ctor (paramsUnit true false)
    Globals.initial).1 mapEverywhere poseOrigin Globals.initial rfl⟩

/-! ## C6: binary mode -/

/-- C6: in binary mode `isValid` is `boxesAreValidAtPoses` applied to the four foot poses
`pose * T(ox, oy, 0)`, `pose * T(ox, -oy, 0)`, `pose * T(-ox, oy, 0)`, `pose * T(-ox, -oy, 0)`
in this order; with a map bound it has a result, which is `true` iff `boxIsValidAtPose`
returns `true` at each of the four. -/
theorem isValid_binary (cc : CollisionFn) (self : ValidityCheckerFeet) (m : TerrainMap)
    (pose : Pose3) (g : Globals) (hdis : self.params_.objectives.clearance.enable = false) :
    (self.setMap (some m)).isValid cc pose g =
      (self.setMap (some m)).boxesAreValidAtPoses cc
        [pose * Pose3FromXYZ self.params_.robot.feet.offset.x self.params_.robot.feet.offset.y 0,
         pose * Pose3FromXYZ self.params_.robot.feet.offset.x
           (-self.params_.robot.feet.offset.y) 0,
         pose * Pose3FromXYZ (-self.params_.robot.feet.offset.x)
           self.params_.robot.feet.offset.y 0,
         pose * Pose3FromXYZ (-self.params_.robot.feet.offset.x)
           (-self.params_.robot.feet.offset.y) 0] g ∧
    ∃ b g1, (self.setMap (some m)).isValid cc pose g = some (b, g1) ∧
      (b = true ↔ ∀ foot ∈
        [pose * Pose3FromXYZ self.params_.robot.feet.offset.x self.params_.robot.feet.offset.y 0,
         pose * Pose3FromXYZ self.params_.robot.feet.offset.x
           (-self.params_.robot.feet.offset.y) 0,
         pose * Pose3FromXYZ (-self.params_.robot.feet.offset.x)
           self.params_.robot.feet.offset.y 0,
         pose * Pose3FromXYZ (-self.params_.robot.feet.offset.x)
           (-self.params_.robot.feet.offset.y) 0],
        ((self.setMap (some m)).boxIsValidAtPose cc foot g).map Prod.fst = some true) := by
  have hdis1 : (self.setMap (some m)).params_.objectives.clearance.enable = false := hdis
  have heq : (self.setMap (some m)).isValid cc pose g =
      (self.setMap (some m)).boxesAreValidAtPoses cc
        ((self.setMap (some m)).footPoses pose) g := by
    simp [ValidityCheckerFeet.isValid, hdis1]
  refine ⟨heq, ?_⟩
  obtain ⟨g1, hrun, -, -⟩ :=
    boxesLoop_run cc (self.setMap (some m)) m rfl ((self.setMap (some m)).footPoses pose) g
  refine ⟨_, g1, heq.trans hrun, ?_⟩
  rw [List.all_eq_true]
  refine forall_congr' fun foot => ?_
  rw [boxVerdict_eq_true_iff cc (self.setMap (some m)) m rfl]
  rfl

/-- Witness of C6: the binary evaluator built from `paramsUnit`, on `mapEverywhere`. -/
theorem isValid_binary_witness :
    (ValidityCheckerFeet.ctor (paramsUnit false false)
      Globals.initial).1.params_.objectives.clearance.enable = false ∧
    ((ValidityCheckerFeet.ctor (paramsUnit false false) Globals.initial).1.setMap
        (some mapEverywhere)).isValid ccFront poseOrigin Globals.initial =
      ((ValidityCheckerFeet.ctor (paramsUnit false false) Globals.initial).1.setMap
        (some mapEverywhere)).boxesAreValidAtPoses ccFront
        [poseOrigin * Pose3FromXYZ 10 5 0, poseOrigin * Pose3FromXYZ 10 (-5) 0,
         poseOrigin * Pose3FromXYZ (-10) 5 0, poseOrigin * Pose3FromXYZ (-10) (-5) 0]
        Globals.initial :=
  ⟨rfl, (isValid_binary ccFront (ValidityCheckerFeet.ctor (paramsUnit false false)
    Globals.initial).1 mapEverywhere poseOrigin Globals.initial rfl).1⟩

/-! ## C3: body poses outside the map -/

/-- C3 (as stated, refuted): the body pose `poseEdge` is outside `mapUnitSquare` and unknown
space is traversable, so the claim gives `isValid = true`; but the two rear feet are inside
the map, where the checker `ccFree` reports no contact, and `isValid` returns `false`, in
binary mode and in graded mode. -/
theorem isValid_body_outside_counterexample :
    mapUnitSquare.isInside poseEdge.translation.x poseEdge.translation.y = false ∧
    (paramsNear false).planner.unknown_space_untraversable = false ∧
    (((ValidityCheckerFeet.ctor (paramsNear false) Globals.initial).1.setMap
      (some mapUnitSquare)).isValid ccFree poseEdge Globals.initial).map Prod.fst
      = some false ∧
    (((ValidityCheckerFeet.ctor (paramsNear true) Globals.initial).1.setMap
      (some mapUnitSquare)).isValid ccFree poseEdge
        (ValidityCheckerFeet.ctor (paramsNear true) Globals.initial).2).map Prod.fst
      = some false := by
  refine ⟨?_, rfl, ?_, ?_⟩
  · norm_num [mapUnitSquare, poseEdge, Pose3FromXYZ]
  · norm_num [ValidityCheckerFeet.isValid, ValidityCheckerFeet.ctor, paramsNear,
      ValidityCheckerFeet.setMap, ValidityCheckerFeet.boxesAreValidAtPoses,
      ValidityCheckerFeet.footPoses, ValidityCheckerFeet.boxesLoop,
      ValidityCheckerFeet.boxIsValidAtPose, mapUnitSquare, poseEdge, Pose3FromXYZ_mul, ccFree]
    norm_num [Pose3FromXYZ]
  · norm_num [ValidityCheckerFeet.isValid, ValidityCheckerFeet.ctor, paramsNear,
      ValidityCheckerFeet.setMap, ValidityCheckerFeet.footLoop, ValidityCheckerFeet.longLoop,
      ValidityCheckerFeet.latLoop, ValidityCheckerFeet.gridPose, kNLongSplit, kNLatSplit,
      ValidityCheckerFeet.footPoses,
      ValidityCheckerFeet.boxIsValidAtPose, mapUnitSquare, poseEdge, Pose3FromXYZ_mul, ccFree]
    norm_num [Pose3FromXYZ]

/-- The verdict at a pose outside the bound map is `!unknown_space_untraversable`. -/
theorem boxVerdict_outside (cc : CollisionFn) (self : ValidityCheckerFeet) (m : TerrainMap)
    (hm : self.traversability_map_ = some m) (g : Globals) (pose : Pose3)
    (hout : m.isInside pose.translation.x pose.translation.y = false) :
    self.boxVerdict cc g pose = !self.params_.planner.unknown_space_untraversable := by
  simp [ValidityCheckerFeet.boxVerdict, ValidityCheckerFeet.boxIsValidAtPose, hm, hout]

/-- C3 (amended): when every pose `isValid` can probe lies outside the bound map (in binary
mode the four foot poses, in graded mode the nine grid poses of each of the four feet),
`isValid` returns `!unknown_space_untraversable`, whatever the checker function, the checker
object and the content of the map. -/
theorem isValid_probes_outside (cc : CollisionFn) (self : ValidityCheckerFeet)
    (m : TerrainMap) (pose : Pose3) (g : Globals)
    (hbin : self.params_.objectives.clearance.enable = false →
      ∀ foot ∈ self.footPoses pose,
        m.isInside foot.translation.x foot.translation.y = false)
    (hgrid : self.params_.objectives.clearance.enable = true →
      ∀ foot ∈ self.footPoses pose, ∀ i ∈ ([-1, 0, 1] : List ℤ), ∀ j ∈ ([-1, 0, 1] : List ℤ),
        m.isInside (self.gridPose foot i j).translation.x
          (self.gridPose foot i j).translation.y = false) :
    ((self.setMap (some m)).isValid cc pose g).map Prod.fst =
      some (!self.params_.planner.unknown_space_untraversable) := by
  cases hen : self.params_.objectives.clearance.enable with
  | false =>
    have hen1 : (self.setMap (some m)).params_.objectives.clearance.enable = false := hen
    obtain ⟨g1, hrun, -, -⟩ :=
      boxesLoop_run cc (self.setMap (some m)) m rfl ((self.setMap (some m)).footPoses pose) g
    have hall : ∀ foot ∈ (self.setMap (some m)).footPoses pose,
        (self.setMap (some m)).boxVerdict cc g foot =
          !self.params_.planner.unknown_space_untraversable := fun foot hf =>
      boxVerdict_outside cc (self.setMap (some m)) m rfl g foot (hbin hen foot hf)
    simp only [ValidityCheckerFeet.isValid, hen1, ValidityCheckerFeet.boxesAreValidAtPoses,
      hrun, Option.map_some', Bool.false_eq_true, if_false]
    simp only [ValidityCheckerFeet.footPoses, List.mem_cons, List.mem_singleton,
      List.not_mem_nil, or_false, forall_eq_or_imp, forall_eq] at hall
    obtain ⟨h1, h2, h3, h4⟩ := hall
    simp only [ValidityCheckerFeet.footPoses, List.all_cons, List.all_nil, h1, h2, h3, h4]
    cases self.params_.planner.unknown_space_untraversable <;> rfl
  | true =>
    have hen1 : (self.setMap (some m)).params_.objectives.clearance.enable = true := hen
    obtain ⟨b, g1, hrun, -, hiff⟩ :=
      footLoop_run cc (self.setMap (some m)) m rfl ((self.setMap (some m)).footPoses pose) g
    have hmem : ∀ i : ℕ, i < 3 → (-1 + (i : ℤ)) ∈ ([-1, 0, 1] : List ℤ) := by
      intro i hi; interval_cases i <;> simp
    have hall : ∀ foot ∈ (self.setMap (some m)).footPoses pose, ∀ i : ℕ, i < 3 →
        ∀ j : ℕ, j < 3 →
        (self.setMap (some m)).boxVerdict cc g
            ((self.setMap (some m)).gridPose foot (-1 + i) (-1 + j)) =
          !self.params_.planner.unknown_space_untraversable := fun foot hf i hi j hj =>
      boxVerdict_outside cc (self.setMap (some m)) m rfl g _
        (hgrid hen foot hf _ (hmem i hi) _ (hmem j hj))
    simp only [ValidityCheckerFeet.isValid, hen1, hrun, Option.map_some', if_true]
    congr 1
    cases hflag : self.params_.planner.unknown_space_untraversable with
    | false =>
      rw [hflag] at hall
      exact hiff.mpr fun foot hf =>
        ⟨0, by decide, 0, by decide, hall foot hf 0 (by decide) 0 (by decide)⟩
    | true =>
      rw [hflag] at hall
      cases hb : b with
      | false => rfl
      | true =>
        obtain ⟨i, hi, j, hj, hv⟩ := hiff.mp hb _ (List.mem_cons_self _ _)
        rw [hall _ (List.mem_cons_self _ _) i hi j hj] at hv
        exact absurd hv (by simp)

/-- Witness of C3 (amended): the body pose `poseFar` on `mapUnitSquare`, where every probe
is outside the map: the binary evaluator with unknown space untraversable returns `false`
although the checker reports contact everywhere, the graded evaluator with unknown space
traversable returns `true` although the checker reports no contact anywhere. -/
theorem isValid_probes_outside_witness :
    (((ValidityCheckerFeet.ctor (paramsUnit false true) Globals.initial).1.setMap
      (some mapUnitSquare)).isValid ccCollision poseFar Globals.initial).map Prod.fst =
      some false ∧
    (((ValidityCheckerFeet.ctor (paramsUnit true false) Globals.initial).1.setMap
      (some mapUnitSquare)).isValid ccFree poseFar Globals.initial).map Prod.fst =
      some true :=
  ⟨isValid_probes_outside ccCollision (ValidityCheckerFeet.ctor (paramsUnit false true)
      Globals.initial).1 mapUnitSquare poseFar Globals.initial
      (fun _ foot hf => by
        simp only [ValidityCheckerFeet.footPoses, List.mem_cons, List.mem_singleton,
          List.not_mem_nil, or_false] at hf
        rcases hf with rfl | rfl | rfl | rfl <;>
          norm_num [mapUnitSquare, poseFar, Pose3FromXYZ_mul, ValidityCheckerFeet.ctor,
            paramsUnit] <;> norm_num [Pose3FromXYZ])
      (fun h => absurd h (by decide)),
   isValid_probes_outside ccFree (ValidityCheckerFeet.ctor (paramsUnit true false)
      Globals.initial).1 mapUnitSquare poseFar Globals.initial
      (fun h => absurd h (by decide))
      (fun _ foot hf i hi j hj => by
        simp only [ValidityCheckerFeet.footPoses, ValidityCheckerFeet.ctor, paramsUnit,
          if_true, poseFar, Pose3FromXYZ_mul, List.mem_cons, List.mem_singleton,
          List.not_mem_nil, or_false] at hf hi hj
        simp only [ValidityCheckerFeet.gridPose, ValidityCheckerFeet.ctor, paramsUnit,
          if_true, kNLongSplit, kNLatSplit, mapUnitSquare]
        rcases hf with rfl | rfl | rfl | rfl <;> rcases hi with rfl | rfl | rfl <;>
          rcases hj with rfl | rfl | rfl <;> simp only [Pose3FromXYZ_mul] <;>
          norm_num [Pose3FromXYZ])⟩

/-! ## The value of `getClearance` -/

/-- One line of `getClearance`, run from statics `g1` that agree with `g`: the weight read
from `g` is added iff the verdict (taken from `g`) is `false`. -/
theorem addIfInvalid_run (cc : CollisionFn) (self : ValidityCheckerFeet) (m : TerrainMap)
    (hm : self.traversability_map_ = some m) (g : Globals) (k : Globals → ℚ)
    (hk : ∀ g1, g.Same g1 → k g1 = k g) (p : Pose3) (g1 : Globals) (hs : g.Same g1) :
    ∃ g2, g.Same g2 ∧ ∀ cost : ℚ, self.addIfInvalid cc p k cost g1 =
        some (cost + (if self.boxVerdict cc g p = false then k g else 0), g2) := by
  obtain ⟨g2, hrun, hsame, -⟩ := boxIsValidAtPose_run cc self m hm p g1
  refine ⟨g2, hs.trans hsame, fun cost => ?_⟩
  rw [ValidityCheckerFeet.addIfInvalid, hrun, boxVerdict_congr cc self hs]
  have hk2 := hk g2 (hs.trans hsame)
  cases self.boxVerdict cc g p <;> simp [hk2]

/-- The body of the loop of `getClearance` for one foot adds the charge of that foot. -/
theorem clearanceBody_run (cc : CollisionFn) (self : ValidityCheckerFeet) (m : TerrainMap)
    (hm : self.traversability_map_ = some m) (g : Globals) (foot : Pose3) (cost : ℚ)
    (g1 : Globals) (hs : g.Same g1) :
    ∃ g2, self.clearanceBody cc foot cost g1 = some (cost + self.footCharge cc g foot, g2) ∧
      g.Same g2 := by
  have kc : ∀ g1, g.Same g1 → Globals.kCostCenter g1 = Globals.kCostCenter g :=
    fun _ h => h.1
  have kl : ∀ g1, g.Same g1 → Globals.kCostLon g1 = Globals.kCostLon g :=
    fun _ h => h.2.1
  have kt : ∀ g1, g.Same g1 → Globals.kCostLat g1 = Globals.kCostLat g :=
    fun _ h => h.2.2.1
  have kd : ∀ g1, g.Same g1 → Globals.kCostDiag g1 = Globals.kCostDiag g :=
    fun _ h => h.2.2.2.1
  obtain ⟨a1, s1, r1⟩ := addIfInvalid_run cc self m hm g _ kc foot g1 hs
  obtain ⟨a2, s2, r2⟩ := addIfInvalid_run cc self m hm g _ kl
    (foot * Pose3FromXYZ self.box_length_ 0 0) a1 s1
  obtain ⟨a3, s3, r3⟩ := addIfInvalid_run cc self m hm g _ kl
    (foot * Pose3FromXYZ (-self.box_length_) 0 0) a2 s2
  obtain ⟨a4, s4, r4⟩ := addIfInvalid_run cc self m hm g _ kt
    (foot * Pose3FromXYZ 0 self.box_width_ 0) a3 s3
  obtain ⟨a5, s5, r5⟩ := addIfInvalid_run cc self m hm g _ kt
    (foot * Pose3FromXYZ 0 (-self.box_width_) 0) a4 s4
  obtain ⟨a6, s6, r6⟩ := addIfInvalid_run cc self m hm g _ kd
    (foot * Pose3FromXYZ self.box_length_ self.box_width_ 0) a5 s5
  obtain ⟨a7, s7, r7⟩ := addIfInvalid_run cc self m hm g _ kd
    (foot * Pose3FromXYZ self.box_length_ (-self.box_width_) 0) a6 s6
  obtain ⟨a8, s8, r8⟩ := addIfInvalid_run cc self m hm g _ kd
    (foot * Pose3FromXYZ (-self.box_length_) self.box_width_ 0) a7 s7
  obtain ⟨a9, s9, r9⟩ := addIfInvalid_run cc self m hm g _ kd
    (foot * Pose3FromXYZ (-self.box_length_) (-self.box_width_) 0) a8 s8
  refine ⟨a9, ?_, s9⟩
  simp only [ValidityCheckerFeet.clearanceBody, r1, Option.some_bind, r2, r3, r4, r5, r6, r7,
    r8, r9, ValidityCheckerFeet.footCharge, ValidityCheckerFeet.stencil, List.map_cons,
    List.map_nil, List.sum_cons, List.sum_nil, Option.some.injEq, Prod.mk.injEq, and_true]
  ring

/-- The loop of `getClearance` adds the charges of the feet it visits. -/
theorem clearanceLoop_run (cc : CollisionFn) (self : ValidityCheckerFeet) (m : TerrainMap)
    (hm : self.traversability_map_ = some m) (g : Globals) (feet : List Pose3) :
    ∀ (cost : ℚ) (g1 : Globals), g.Same g1 →
      ∃ g2, self.clearanceLoop cc feet cost g1 =
          some (cost + (feet.map (self.footCharge cc g)).sum, g2) ∧ g.Same g2 := by
  induction feet with
  | nil => intro cost g1 hs; exact ⟨g1, by simp [ValidityCheckerFeet.clearanceLoop], hs⟩
  | cons foot rest ih =>
    intro cost g1 hs
    obtain ⟨g2, hrun, hs2⟩ := clearanceBody_run cc self m hm g foot cost g1 hs
    obtain ⟨g3, hrun3, hs3⟩ := ih (cost + self.footCharge cc g foot) g2 hs2
    refine ⟨g3, ?_, hs3⟩
    simp only [ValidityCheckerFeet.clearanceLoop, hrun, hrun3, List.map_cons, List.sum_cons,
      Option.some.injEq, Prod.mk.injEq, and_true]
    ring

/-- With a map bound, `getClearance` has a result: `kMaxCost` minus the charges of the four
feet, all read from the statics at the call. -/
theorem getClearance_run (cc : CollisionFn) (self : ValidityCheckerFeet) (m : TerrainMap)
    (hm : self.traversability_map_ = some m) (pose : Pose3) (g : Globals) :
    ∃ g1, self.getClearance cc pose g =
        some (g.kMaxCost - ((self.footPoses pose).map (self.footCharge cc g)).sum, g1) ∧
      g.Same g1 := by
  obtain ⟨g1, hrun, hs⟩ :=
    clearanceLoop_run cc self m hm g (self.footPoses pose) 0 g (Globals.Same.refl g)
  refine ⟨g1, ?_, hs⟩
  simp [ValidityCheckerFeet.getClearance, hrun, hs.2.2.2.2.1]

/-! ## C9, C10: the weights are statics of the translation unit -/

/-- C9 (the code at the failing input): the graded evaluator built from `paramsUnit` (all
weights 1) returns clearance 18 for the origin pose with the checker `ccFront`; once a second
graded evaluator has been built from `paramsTwo` (all weights 2), the same call on the first
evaluator returns 36. -/
theorem getClearance_after_second_ctor :
    (((ValidityCheckerFeet.ctor (paramsUnit true false) Globals.initial).1.setMap
        (some mapEverywhere)).getClearance ccFront poseOrigin
        (ValidityCheckerFeet.ctor (paramsUnit true false) Globals.initial).2).map Prod.fst =
      some 18 ∧
    (((ValidityCheckerFeet.ctor (paramsUnit true false) Globals.initial).1.setMap
        (some mapEverywhere)).getClearance ccFront poseOrigin
        (ValidityCheckerFeet.ctor (paramsTwo true false)
          (ValidityCheckerFeet.ctor (paramsUnit true false) Globals.initial).2).2).map
        Prod.fst = some 36 := by
  constructor
  · obtain ⟨g1, hrun, -⟩ := getClearance_run ccFront
      ((ValidityCheckerFeet.ctor (paramsUnit true false) Globals.initial).1.setMap
        (some mapEverywhere)) mapEverywhere rfl poseOrigin
      (ValidityCheckerFeet.ctor (paramsUnit true false) Globals.initial).2
    rw [hrun]
    norm_num [ValidityCheckerFeet.footCharge, ValidityCheckerFeet.stencil,
      ValidityCheckerFeet.footPoses, ValidityCheckerFeet.boxVerdict,
      ValidityCheckerFeet.boxIsValidAtPose, ValidityCheckerFeet.setMap,
      ValidityCheckerFeet.ctor, paramsUnit, mapEverywhere, ccFront, poseOrigin,
      Pose3FromXYZ_mul, writeScratch, kNLongSplit, kNLatSplit]
    norm_num [Pose3FromXYZ]
  · obtain ⟨g1, hrun, -⟩ := getClearance_run ccFront
      ((ValidityCheckerFeet.ctor (paramsUnit true false) Globals.initial).1.setMap
        (some mapEverywhere)) mapEverywhere rfl poseOrigin
      (ValidityCheckerFeet.ctor (paramsTwo true false)
        (ValidityCheckerFeet.ctor (paramsUnit true false) Globals.initial).2).2
    rw [hrun]
    norm_num [ValidityCheckerFeet.footCharge, ValidityCheckerFeet.stencil,
      ValidityCheckerFeet.footPoses, ValidityCheckerFeet.boxVerdict,
      ValidityCheckerFeet.boxIsValidAtPose, ValidityCheckerFeet.setMap,
      ValidityCheckerFeet.ctor, paramsUnit, paramsTwo, mapEverywhere, ccFront, poseOrigin,
      Pose3FromXYZ_mul, writeScratch, kNLongSplit, kNLatSplit]
    norm_num [Pose3FromXYZ]

/-- C10 (as stated, refuted): the configuration `paramsUnit` supplies the weights 1, 1, 1, 1
with clearance disabled. For the origin pose with the checker `ccFront`, `maxCost` minus the
accumulated cost for these weights is `36 - 18 = 18`, but `getClearance` returns `0`. -/
theorem getClearance_disabled_counterexample :
    (paramsUnit false false).objectives.clearance.enable = false ∧
    maxCost 1 1 1 1 -
      ((ValidityCheckerFeet.ctor (paramsUnit false false) Globals.initial).1.setMap
        (some mapEverywhere)).accumulatedInvalidWeight ccFront
        (ValidityCheckerFeet.ctor (paramsUnit false false) Globals.initial).2 poseOrigin
        1 1 1 1 = 18 ∧
    (((ValidityCheckerFeet.ctor (paramsUnit false false) Globals.initial).1.setMap
        (some mapEverywhere)).getClearance ccFront poseOrigin
        (ValidityCheckerFeet.ctor (paramsUnit false false) Globals.initial).2).map Prod.fst =
      some 0 := by
  refine ⟨rfl, ?_, ?_⟩
  · norm_num [maxCost, ValidityCheckerFeet.accumulatedInvalidWeight,
      ValidityCheckerFeet.stencil, ValidityCheckerFeet.footPoses,
      ValidityCheckerFeet.boxIsValidAtPose, ValidityCheckerFeet.setMap,
      ValidityCheckerFeet.ctor, paramsUnit, mapEverywhere, ccFront, poseOrigin,
      Pose3FromXYZ_mul, writeScratch]
    norm_num [Pose3FromXYZ]
  · obtain ⟨g1, hrun, -⟩ := getClearance_run ccFront
      ((ValidityCheckerFeet.ctor (paramsUnit false false) Globals.initial).1.setMap
        (some mapEverywhere)) mapEverywhere rfl poseOrigin
      (ValidityCheckerFeet.ctor (paramsUnit false false) Globals.initial).2
    rw [hrun]
    norm_num [ValidityCheckerFeet.footCharge, ValidityCheckerFeet.stencil,
      ValidityCheckerFeet.footPoses, ValidityCheckerFeet.ctor, paramsUnit, Globals.initial]

/-- C10 (amended): with clearance disabled the constructor leaves the statics as they are
and does not read the configured weights; `getClearance` still has a result for every pose
once a map is bound, and when the weight statics and `kMaxCost` hold their initial value
zero that result is `0`, whatever weights the configuration supplies. -/
theorem getClearance_disabled (cc : CollisionFn) (params : Params) (m : TerrainMap)
    (pose : Pose3) (g0 : Globals) (hdis : params.objectives.clearance.enable = false)
    (hc : g0.kCostCenter = 0) (hl : g0.kCostLon = 0) (ht : g0.kCostLat = 0)
    (hd : g0.kCostDiag = 0) (hmax : g0.kMaxCost = 0) :
    (ValidityCheckerFeet.ctor params g0).2 = g0 ∧
    (((ValidityCheckerFeet.ctor params g0).1.setMap (some m)).getClearance cc pose
        (ValidityCheckerFeet.ctor params g0).2).map Prod.fst = some 0 := by
  have hg : (ValidityCheckerFeet.ctor params g0).2 = g0 := by
    simp [ValidityCheckerFeet.ctor, hdis]
  refine ⟨hg, ?_⟩
  obtain ⟨g1, hrun, -⟩ := getClearance_run cc
    ((ValidityCheckerFeet.ctor params g0).1.setMap (some m)) m rfl pose
    (ValidityCheckerFeet.ctor params g0).2
  rw [hrun, hg]
  simp [ValidityCheckerFeet.footCharge, ValidityCheckerFeet.stencil,
    ValidityCheckerFeet.footPoses, hc, hl, ht, hd, hmax]

/-- Witness of C10 (amended): the configuration `paramsUnit` with clearance disabled, from
the initial statics. -/
theorem getClearance_disabled_witness :
    (paramsUnit false false).objectives.clearance.enable = false ∧
    Globals.initial.kMaxCost = 0 ∧
    (((ValidityCheckerFeet.ctor (paramsUnit false false) Globals.initial).1.setMap
        (some mapEverywhere)).getClearance ccFront poseOrigin
        (ValidityCheckerFeet.ctor (paramsUnit false false) Globals.initial).2).map Prod.fst =
      some 0 :=
  ⟨rfl, rfl, (getClearance_disabled ccFront (paramsUnit false false) mapEverywhere poseOrigin
    Globals.initial rfl rfl rfl rfl rfl rfl).2⟩

/-! ## C11: `getClearance` probes all 36 stencil points -/

/-- One line of `getClearance` has a result and logs exactly one probe, at `p`. -/
theorem addIfInvalid_trace (cc : CollisionFn) (self : ValidityCheckerFeet) (m : TerrainMap)
    (hm : self.traversability_map_ = some m) (k : Globals → ℚ) (p : Pose3) (cost : ℚ)
    (g : Globals) :
    ∃ c g1, self.addIfInvalid cc p k cost g = some (c, g1) ∧ g1.probes = g.probes ++ [p] := by
  obtain ⟨g1, hrun, -, hlog⟩ := boxIsValidAtPose_run cc self m hm p g
  exact ⟨_, g1, by rw [ValidityCheckerFeet.addIfInvalid, hrun], hlog⟩

/-- The body of the loop of `getClearance` logs the nine stencil poses of the foot, in the
order of the source, whatever the verdicts. -/
theorem clearanceBody_trace (cc : CollisionFn) (self : ValidityCheckerFeet) (m : TerrainMap)
    (hm : self.traversability_map_ = some m) (foot : Pose3) (cost : ℚ) (g : Globals) :
    ∃ c g1, self.clearanceBody cc foot cost g = some (c, g1) ∧
      g1.probes = g.probes ++
        [foot,
         foot * Pose3FromXYZ self.box_length_ 0 0,
         foot * Pose3FromXYZ (-self.box_length_) 0 0,
         foot * Pose3FromXYZ 0 self.box_width_ 0,
         foot * Pose3FromXYZ 0 (-self.box_width_) 0,
         foot * Pose3FromXYZ self.box_length_ self.box_width_ 0,
         foot * Pose3FromXYZ self.box_length_ (-self.box_width_) 0,
         foot * Pose3FromXYZ (-self.box_length_) self.box_width_ 0,
         foot * Pose3FromXYZ (-self.box_length_) (-self.box_width_) 0] := by
  obtain ⟨c1, a1, r1, p1⟩ := addIfInvalid_trace cc self m hm Globals.kCostCenter foot cost g
  obtain ⟨c2, a2, r2, p2⟩ := addIfInvalid_trace cc self m hm Globals.kCostLon
    (foot * Pose3FromXYZ self.box_length_ 0 0) c1 a1
  obtain ⟨c3, a3, r3, p3⟩ := addIfInvalid_trace cc self m hm Globals.kCostLon
    (foot * Pose3FromXYZ (-self.box_length_) 0 0) c2 a2
  obtain ⟨c4, a4, r4, p4⟩ := addIfInvalid_trace cc self m hm Globals.kCostLat
    (foot * Pose3FromXYZ 0 self.box_width_ 0) c3 a3
  obtain ⟨c5, a5, r5, p5⟩ := addIfInvalid_trace cc self m hm Globals.kCostLat
    (foot * Pose3FromXYZ 0 (-self.box_width_) 0) c4 a4
  obtain ⟨c6, a6, r6, p6⟩ := addIfInvalid_trace cc self m hm Globals.kCostDiag
    (foot * Pose3FromXYZ self.box_length_ self.box_width_ 0) c5 a5
  obtain ⟨c7, a7, r7, p7⟩ := addIfInvalid_trace cc self m hm Globals.kCostDiag
    (foot * Pose3FromXYZ self.box_length_ (-self.box_width_) 0) c6 a6
  obtain ⟨c8, a8, r8, p8⟩ := addIfInvalid_trace cc self m hm Globals.kCostDiag
    (foot * Pose3FromXYZ (-self.box_length_) self.box_width_ 0) c7 a7
  obtain ⟨c9, a9, r9, p9⟩ := addIfInvalid_trace cc self m hm Globals.kCostDiag
    (foot * Pose3FromXYZ (-self.box_length_) (-self.box_width_) 0) c8 a8
  refine ⟨c9, a9, ?_, ?_⟩
  · simp only [ValidityCheckerFeet.clearanceBody, r1, Option.some_bind, r2, r3, r4, r5, r6,
      r7, r8, r9]
  · rw [p9, p8, p7, p6, p5, p4, p3, p2, p1]
    simp

/-- The loop of `getClearance` logs the nine stencil poses of every foot it is given. -/
theorem clearanceLoop_trace (cc : CollisionFn) (self : ValidityCheckerFeet) (m : TerrainMap)
    (hm : self.traversability_map_ = some m) (feet : List Pose3) :
    ∀ (cost : ℚ) (g : Globals), ∃ c g1, self.clearanceLoop cc feet cost g = some (c, g1) ∧
      g1.probes = g.probes ++ feet.flatMap fun foot =>
        [foot,
         foot * Pose3FromXYZ self.box_length_ 0 0,
         foot * Pose3FromXYZ (-self.box_length_) 0 0,
         foot * Pose3FromXYZ 0 self.box_width_ 0,
         foot * Pose3FromXYZ 0 (-self.box_width_) 0,
         foot * Pose3FromXYZ self.box_length_ self.box_width_ 0,
         foot * Pose3FromXYZ self.box_length_ (-self.box_width_) 0,
         foot * Pose3FromXYZ (-self.box_length_) self.box_width_ 0,
         foot * Pose3FromXYZ (-self.box_length_) (-self.box_width_) 0] := by
  induction feet with
  | nil => intro cost g; exact ⟨cost, g, rfl, by simp⟩
  | cons foot rest ih =>
    intro cost g
    obtain ⟨c1, g1, hrun, hlog⟩ := clearanceBody_trace cc self m hm foot cost g
    obtain ⟨c2, g2, hrun2, hlog2⟩ := ih c1 g1
    refine ⟨c2, g2, ?_, ?_⟩
    · simp only [ValidityCheckerFeet.clearanceLoop, hrun, hrun2]
    · rw [hlog2, hlog, List.flatMap_cons, List.append_assoc]

/-- C11: with a map bound, `getClearance` has no early exit: for every pose, every checker and
every map it calls `boxIsValidAtPose` exactly 36 times, on the nine stencil poses (the foot
pose itself, then the offsets `(±box_length, 0)`, `(0, ±box_width)`, `(±box_length,
±box_width)`) of each of the four foot poses, in this order. -/
theorem getClearance_probes_all (cc : CollisionFn) (self : ValidityCheckerFeet)
    (m : TerrainMap) (pose : Pose3) (g : Globals) :
    ∃ r g1, (self.setMap (some m)).getClearance cc pose g = some (r, g1) ∧
      g1.probes = g.probes ++ ((self.setMap (some m)).footPoses pose).flatMap (fun foot =>
        [foot,
         foot * Pose3FromXYZ self.box_length_ 0 0,
         foot * Pose3FromXYZ (-self.box_length_) 0 0,
         foot * Pose3FromXYZ 0 self.box_width_ 0,
         foot * Pose3FromXYZ 0 (-self.box_width_) 0,
         foot * Pose3FromXYZ self.box_length_ self.box_width_ 0,
         foot * Pose3FromXYZ self.box_length_ (-self.box_width_) 0,
         foot * Pose3FromXYZ (-self.box_length_) self.box_width_ 0,
         foot * Pose3FromXYZ (-self.box_length_) (-self.box_width_) 0]) ∧
      g1.probes.length = g.probes.length + 36 := by
  obtain ⟨c, g1, hrun, hlog⟩ := clearanceLoop_trace cc (self.setMap (some m)) m rfl
    ((self.setMap (some m)).footPoses pose) 0 g
  refine ⟨g1.kMaxCost - c, g1, ?_, hlog, ?_⟩
  · simp only [ValidityCheckerFeet.getClearance, hrun]
  · rw [hlog]
    simp [ValidityCheckerFeet.footPoses]

/-! ## C16, C12: the probes of the grid search -/

theorem uptoFirst_append {α : Type} (v : α → Bool) (l1 l2 : List α) :
    uptoFirst v (l1 ++ l2) =
      if l1.any v then uptoFirst v l1 else l1 ++ uptoFirst v l2 := by
  induction l1 with
  | nil => simp [uptoFirst]
  | cons a l ih =>
    cases ha : v a with
    | true => simp [uptoFirst, ha]
    | false =>
      by_cases hl : l.any v = true
      · simp [uptoFirst, ha, ih, hl]
      · simp [uptoFirst, ha, ih, hl]

theorem uptoFirst_eq_take {α : Type} (v : α → Bool) (l : List α) :
    uptoFirst v l = l.take ((l.takeWhile fun a => !v a).length + 1) := by
  induction l with
  | nil => rfl
  | cons a l ih =>
    cases ha : v a with
    | true => simp [uptoFirst, ha, List.takeWhile]
    | false => simp [uptoFirst, ha, List.takeWhile, ih]

theorem length_uptoFirst_le {α : Type} (v : α → Bool) (l : List α) :
    (uptoFirst v l).length ≤ l.length := by
  rw [uptoFirst_eq_take, List.length_take]
  exact Nat.min_le_right _ _

/-- The inner loop of the grid search, entered with `foot_valid` unset: `foot_valid` at its
exit says whether the row holds a valid pose, and the row is probed up to and including its
first valid pose. -/
theorem latLoop_trace (cc : CollisionFn) (self : ValidityCheckerFeet) (m : TerrainMap)
    (hm : self.traversability_map_ = some m) (foot : Pose3) (long : ℤ) (n : ℕ) :
    ∀ (lat : ℤ) (g : Globals), ∃ g1,
      self.latLoop cc foot long n lat false g =
        some ((self.rowPoses foot long n lat).any (self.boxVerdict cc g), g1) ∧
      g.Same g1 ∧
      g1.probes = g.probes ++
        uptoFirst (self.boxVerdict cc g) (self.rowPoses foot long n lat) := by
  induction n with
  | zero =>
    intro lat g
    exact ⟨g, rfl, Globals.Same.refl g, by simp [ValidityCheckerFeet.rowPoses, uptoFirst]⟩
  | succ n ih =>
    intro lat g
    obtain ⟨g1, hrun, hsame, hlog⟩ :=
      boxIsValidAtPose_run cc self m hm (self.gridPose foot long lat) g
    cases hv : self.boxVerdict cc g (self.gridPose foot long lat) with
    | true =>
      refine ⟨g1, ?_, hsame, ?_⟩
      · simp [ValidityCheckerFeet.latLoop, hrun, hv, ValidityCheckerFeet.rowPoses]
      · simp [ValidityCheckerFeet.rowPoses, uptoFirst, hv, hlog]
    | false =>
      obtain ⟨g2, hrun2, hsame2, hlog2⟩ := ih (lat + 1) g1
      refine ⟨g2, ?_, hsame.trans hsame2, ?_⟩
      · simp [ValidityCheckerFeet.latLoop, hrun, hv, hrun2, ValidityCheckerFeet.rowPoses,
          boxVerdict_funext cc self hsame]
      · simp [ValidityCheckerFeet.rowPoses, uptoFirst, hv, hlog, hlog2,
          boxVerdict_funext cc self hsame]

/-- The outer loop of the grid search, entered with `foot_valid` unset: `foot_valid` at its
exit says whether the rows hold a valid pose, and the rows are probed, one after the other,
up to and including the first valid pose. -/
theorem longLoop_trace (cc : CollisionFn) (self : ValidityCheckerFeet) (m : TerrainMap)
    (hm : self.traversability_map_ = some m) (foot : Pose3) (n : ℕ) :
    ∀ (long : ℤ) (g : Globals), ∃ g1,
      self.longLoop cc foot n long false g =
        some ((self.gridPoses foot n long).any (self.boxVerdict cc g), g1) ∧
      g.Same g1 ∧
      g1.probes = g.probes ++
        uptoFirst (self.boxVerdict cc g) (self.gridPoses foot n long) := by
  induction n with
  | zero =>
    intro long g
    exact ⟨g, rfl, Globals.Same.refl g, by simp [ValidityCheckerFeet.gridPoses, uptoFirst]⟩
  | succ n ih =>
    intro long g
    obtain ⟨g1, hrun, hsame, hlog⟩ := latLoop_trace cc self m hm foot long kNLatSplit (-1) g
    cases hv : (self.rowPoses foot long kNLatSplit (-1)).any (self.boxVerdict cc g) with
    | true =>
      refine ⟨g1, ?_, hsame, ?_⟩
      · simp [ValidityCheckerFeet.longLoop, hrun, hv, ValidityCheckerFeet.gridPoses]
      · rw [hlog, ValidityCheckerFeet.gridPoses, uptoFirst_append, hv]
        rfl
    | false =>
      obtain ⟨g2, hrun2, hsame2, hlog2⟩ := ih (long + 1) g1
      have hrow : uptoFirst (self.boxVerdict cc g) (self.rowPoses foot long kNLatSplit (-1)) =
          self.rowPoses foot long kNLatSplit (-1) := by
        have h := uptoFirst_append (self.boxVerdict cc g)
          (self.rowPoses foot long kNLatSplit (-1)) []
        simpa [hv, uptoFirst] using h
      refine ⟨g2, ?_, hsame.trans hsame2, ?_⟩
      · simp [ValidityCheckerFeet.longLoop, hrun, hv, hrun2, ValidityCheckerFeet.gridPoses,
          boxVerdict_funext cc self hsame]
      · rw [hlog2, hlog, ValidityCheckerFeet.gridPoses, uptoFirst_append, hv, hrow,
          boxVerdict_funext cc self hsame]
        simp

/-- The loop over the feet in graded mode: the result says whether every foot has a valid
grid pose; the feet are visited up to and including the first one that has none, and the
grid of each visited foot is probed up to and including its first valid pose. -/
theorem footLoop_trace (cc : CollisionFn) (self : ValidityCheckerFeet) (m : TerrainMap)
    (hm : self.traversability_map_ = some m) (feet : List Pose3) :
    ∀ g : Globals, ∃ g1,
      self.footLoop cc feet g =
        some (feet.all fun foot => (self.gridList foot).any (self.boxVerdict cc g), g1) ∧
      g.Same g1 ∧
      g1.probes = g.probes ++
        (uptoFirst (fun foot => !(self.gridList foot).any (self.boxVerdict cc g)) feet).flatMap
          fun foot => uptoFirst (self.boxVerdict cc g) (self.gridList foot) := by
  induction feet with
  | nil => intro g; exact ⟨g, rfl, Globals.Same.refl g, by simp [uptoFirst]⟩
  | cons foot rest ih =>
    intro g
    obtain ⟨g1, hrun, hsame, hlog⟩ := longLoop_trace cc self m hm foot kNLongSplit (-1) g
    cases hv : (self.gridList foot).any (self.boxVerdict cc g) with
    | false =>
      rw [ValidityCheckerFeet.gridList] at hv
      refine ⟨g1, ?_, hsame, ?_⟩
      · simp [ValidityCheckerFeet.footLoop, hrun, hv, ValidityCheckerFeet.gridList]
      · simp [uptoFirst, ValidityCheckerFeet.gridList, hv, hlog]
    | true =>
      rw [ValidityCheckerFeet.gridList] at hv
      obtain ⟨g2, hrun2, hsame2, hlog2⟩ := ih g1
      refine ⟨g2, ?_, hsame.trans hsame2, ?_⟩
      · simp [ValidityCheckerFeet.footLoop, hrun, hv, hrun2, ValidityCheckerFeet.gridList,
          boxVerdict_funext cc self hsame]
      · simp [uptoFirst, ValidityCheckerFeet.gridList, hv, hlog, hlog2,
          boxVerdict_funext cc self hsame]

/-- The grid of a foot is the nine poses `gridPose foot i j`, row after row. -/
theorem gridList_eq (self : ValidityCheckerFeet) (foot : Pose3) :
    self.gridList foot =
      [self.gridPose foot (-1) (-1), self.gridPose foot (-1) 0, self.gridPose foot (-1) 1,
       self.gridPose foot 0 (-1), self.gridPose foot 0 0, self.gridPose foot 0 1,
       self.gridPose foot 1 (-1), self.gridPose foot 1 0, self.gridPose foot 1 1] := by
  simp [ValidityCheckerFeet.gridList, ValidityCheckerFeet.gridPoses,
    ValidityCheckerFeet.rowPoses, kNLongSplit, kNLatSplit]

theorem length_flatMap_le {α β : Type} (f : α → List β) (k : ℕ)
    (hf : ∀ a, (f a).length ≤ k) (l : List α) : (l.flatMap f).length ≤ l.length * k := by
  induction l with
  | nil => simp
  | cons a l ih =>
    rw [List.flatMap_cons, List.length_append, List.length_cons, Nat.succ_mul]
    have := hf a
    omega

/-- C16: in graded mode, with a map bound, the calls of `boxIsValidAtPose` made by `isValid`
are, in order: for each foot of `footPoses` (the offsets `(+ox, +oy)`, `(+ox, -oy)`,
`(-ox, +oy)`, `(-ox, -oy)`), up to and including the first foot whose grid has no valid
pose, the poses of its grid (`(-1, -1)`, `(-1, 0)`, `(-1, 1)`, `(0, -1)`, ..., `(1, 1)`,
longitudinal multiplier outer) up to and including the first valid one. At most 36 probes are
made. -/
theorem isValid_graded_probes (cc : CollisionFn) (self : ValidityCheckerFeet) (m : TerrainMap)
    (pose : Pose3) (g : Globals) (hen : self.params_.objectives.clearance.enable = true) :
    ∃ b g1, (self.setMap (some m)).isValid cc pose g = some (b, g1) ∧
      g1.probes = g.probes ++
        ((self.footPoses pose).take
          (((self.footPoses pose).takeWhile fun foot =>
            (self.gridList foot).any ((self.setMap (some m)).boxVerdict cc g)).length +
            1)).flatMap (fun foot =>
          (self.gridList foot).take
            (((self.gridList foot).takeWhile fun p =>
              !(self.setMap (some m)).boxVerdict cc g p).length + 1)) ∧
      g1.probes.length ≤ g.probes.length + 36 ∧
      self.footPoses pose =
        [pose * Pose3FromXYZ self.params_.robot.feet.offset.x self.params_.robot.feet.offset.y 0,
         pose * Pose3FromXYZ self.params_.robot.feet.offset.x
           (-self.params_.robot.feet.offset.y) 0,
         pose * Pose3FromXYZ (-self.params_.robot.feet.offset.x)
           self.params_.robot.feet.offset.y 0,
         pose * Pose3FromXYZ (-self.params_.robot.feet.offset.x)
           (-self.params_.robot.feet.offset.y) 0] ∧
      ∀ foot, self.gridList foot =
        [self.gridPose foot (-1) (-1), self.gridPose foot (-1) 0, self.gridPose foot (-1) 1,
         self.gridPose foot 0 (-1), self.gridPose foot 0 0, self.gridPose foot 0 1,
         self.gridPose foot 1 (-1), self.gridPose foot 1 0, self.gridPose foot 1 1] := by
  obtain ⟨g1, hrun, -, hlog⟩ :=
    footLoop_trace cc (self.setMap (some m)) m rfl ((self.setMap (some m)).footPoses pose) g
  have hen1 : (self.setMap (some m)).params_.objectives.clearance.enable = true := hen
  have hfeet : (self.setMap (some m)).footPoses pose = self.footPoses pose := rfl
  have hgrid : ∀ foot, (self.setMap (some m)).gridList foot = self.gridList foot :=
    fun _ => rfl
  simp only [hfeet, hgrid] at hrun hlog
  have hlog1 : g1.probes = g.probes ++
      ((self.footPoses pose).take
        (((self.footPoses pose).takeWhile fun foot =>
          (self.gridList foot).any ((self.setMap (some m)).boxVerdict cc g)).length +
          1)).flatMap (fun foot =>
        (self.gridList foot).take
          (((self.gridList foot).takeWhile fun p =>
            !(self.setMap (some m)).boxVerdict cc g p).length + 1)) := by
    rw [hlog, uptoFirst_eq_take]
    simp only [Bool.not_not, uptoFirst_eq_take]
  refine ⟨(self.footPoses pose).all fun foot =>
      (self.gridList foot).any ((self.setMap (some m)).boxVerdict cc g), g1, ?_, hlog1, ?_,
    rfl, gridList_eq self⟩
  · simp only [ValidityCheckerFeet.isValid, hen1, if_true]
    exact hrun
  · rw [hlog1, List.length_append]
    have h1 := length_flatMap_le (fun foot =>
        (self.gridList foot).take
          (((self.gridList foot).takeWhile fun p =>
            !(self.setMap (some m)).boxVerdict cc g p).length + 1)) 9
      (fun foot => by
        rw [List.length_take, gridList_eq]
        exact Nat.min_le_right _ _)
      ((self.footPoses pose).take
        (((self.footPoses pose).takeWhile fun foot =>
          (self.gridList foot).any ((self.setMap (some m)).boxVerdict cc g)).length + 1))
    have h2 : ((self.footPoses pose).take
        (((self.footPoses pose).takeWhile fun foot =>
          (self.gridList foot).any ((self.setMap (some m)).boxVerdict cc g)).length +
          1)).length ≤ 4 := by
      rw [List.length_take]
      exact Nat.min_le_right _ _
    have h3 := Nat.mul_le_mul_right 9 h2
    omega

/-- Witness of C16: the graded evaluator built from `paramsUnit`, on `mapEverywhere`. -/
theorem isValid_graded_probes_witness :
    (ValidityCheckerFeet.ctor (paramsUnit true false)
      Globals.initial).1.params_.objectives.clearance.enable = true ∧
    ∃ b g1, ((ValidityCheckerFeet.ctor (paramsUnit true false) Globals.initial).1.setMap
        (some mapEverywhere)).isValid ccFront poseOrigin Globals.initial = some (b, g1) ∧
      g1.probes.length ≤ Globals.initial.probes.length + 36 :=
  ⟨rfl, (isValid_graded_probes ccFront (ValidityCheckerFeet.ctor (paramsUnit true false)
    Globals.initial).1 mapEverywhere poseOrigin Globals.initial rfl).imp
      fun _ h => h.imp fun _ h1 => ⟨h1.1, h1.2.2.1⟩⟩

/-- Composing with the translation by zero changes nothing. -/
theorem Pose3.mul_fromXYZ_zero (p : Pose3) : p * Pose3FromXYZ 0 0 0 = p := by
  obtain ⟨⟨a, b, c, d, e, f, x, y, z⟩, ⟨u, v, w⟩⟩ := p
  show Pose3.mul _ _ = _
  simp only [Pose3.mul, Pose3FromXYZ, Mat3.mul, Mat3.mulVec, Vec3.add, Mat3.identity,
    Pose3.mk.injEq, Mat3.mk.injEq, Vec3.mk.injEq]
  refine ⟨⟨?_, ?_, ?_, ?_, ?_, ?_, ?_, ?_, ?_⟩, ?_, ?_, ?_⟩ <;> ring

/-- The grid pose for the multipliers `(0, 0)` is the foot pose itself. -/
theorem gridPose_zero (self : ValidityCheckerFeet) (foot : Pose3) :
    self.gridPose foot 0 0 = foot := by
  simp [ValidityCheckerFeet.gridPose, Pose3.mul_fromXYZ_zero]

/-- C12 (as stated, refuted): in graded mode, for the origin pose on `mapEverywhere` with the
checker `ccFree` (no contact anywhere), `isValid` makes the nine probes of the first foot,
and the fifth of them is at the unshifted foot pose `poseOrigin * T(10, 5, 0)`. -/
theorem isValid_graded_centre_counterexample :
    poseOrigin * Pose3FromXYZ 10 5 0 = Pose3FromXYZ 10 5 0 ∧
    (((ValidityCheckerFeet.ctor (paramsUnit true false) Globals.initial).1.setMap
      (some mapEverywhere)).isValid ccFree poseOrigin
        (ValidityCheckerFeet.ctor (paramsUnit true false) Globals.initial).2).map
      (fun r => r.2.probes) =
      some [Pose3FromXYZ 9 4 0, Pose3FromXYZ 9 5 0, Pose3FromXYZ 9 6 0,
            Pose3FromXYZ 10 4 0, Pose3FromXYZ 10 5 0, Pose3FromXYZ 10 6 0,
            Pose3FromXYZ 11 4 0, Pose3FromXYZ 11 5 0, Pose3FromXYZ 11 6 0] := by
  constructor
  · norm_num [poseOrigin, Pose3FromXYZ_mul]
  · norm_num [ValidityCheckerFeet.isValid, ValidityCheckerFeet.ctor, paramsUnit,
      ValidityCheckerFeet.setMap, ValidityCheckerFeet.footLoop, ValidityCheckerFeet.longLoop,
      ValidityCheckerFeet.latLoop, ValidityCheckerFeet.gridPose, kNLongSplit, kNLatSplit,
      ValidityCheckerFeet.footPoses, ValidityCheckerFeet.boxIsValidAtPose, mapEverywhere,
      poseOrigin, Pose3FromXYZ_mul, ccFree, Globals.initial]

/-- C12 (amended): in graded mode the grid search of a foot does not omit the centre: the
offset `(0, 0)` is the fifth of the nine grid offsets, its pose is the unshifted foot pose,
and `boxIsValidAtPose` is called on it for every foot the search visits (the feet up to and
including the first one without a valid grid pose) whose four earlier probes `(-1, -1)`,
`(-1, 0)`, `(-1, 1)`, `(0, -1)` are invalid. -/
theorem isValid_graded_probes_centre (cc : CollisionFn) (self : ValidityCheckerFeet)
    (m : TerrainMap) (pose : Pose3) (g : Globals)
    (hen : self.params_.objectives.clearance.enable = true) :
    (∀ foot, (self.gridList foot).get? 4 = some foot) ∧
    ∃ b g1, (self.setMap (some m)).isValid cc pose g = some (b, g1) ∧
      ∀ foot ∈ (self.footPoses pose).take
          (((self.footPoses pose).takeWhile fun foot =>
            (self.gridList foot).any ((self.setMap (some m)).boxVerdict cc g)).length + 1),
        (self.setMap (some m)).boxVerdict cc g (self.gridPose foot (-1) (-1)) = false →
        (self.setMap (some m)).boxVerdict cc g (self.gridPose foot (-1) 0) = false →
        (self.setMap (some m)).boxVerdict cc g (self.gridPose foot (-1) 1) = false →
        (self.setMap (some m)).boxVerdict cc g (self.gridPose foot 0 (-1)) = false →
        foot ∈ g1.probes.drop g.probes.length := by
  refine ⟨fun foot => by simp [gridList_eq, gridPose_zero], ?_⟩
  obtain ⟨g1, hrun, -, hlog⟩ :=
    footLoop_trace cc (self.setMap (some m)) m rfl ((self.setMap (some m)).footPoses pose) g
  have hen1 : (self.setMap (some m)).params_.objectives.clearance.enable = true := hen
  have hfeet : (self.setMap (some m)).footPoses pose = self.footPoses pose := rfl
  have hgrid : ∀ foot, (self.setMap (some m)).gridList foot = self.gridList foot :=
    fun _ => rfl
  simp only [hfeet, hgrid] at hrun hlog
  refine ⟨_, g1, by simp only [ValidityCheckerFeet.isValid, hen1, if_true]; exact hrun, ?_⟩
  intro foot hfoot h1 h2 h3 h4
  rw [hlog, List.drop_left, List.mem_flatMap]
  refine ⟨foot, ?_, ?_⟩
  · rw [uptoFirst_eq_take]
    simpa only [Bool.not_not] using hfoot
  · rw [gridList_eq]
    cases h5 : (self.setMap (some m)).boxVerdict cc g foot <;>
      simp [uptoFirst, h1, h2, h3, h4, h5, gridPose_zero]

/-- Witness of C12 (amended): the graded evaluator built from `paramsUnit`, on
`mapEverywhere`. -/
theorem isValid_graded_probes_centre_witness :
    (ValidityCheckerFeet.ctor (paramsUnit true false)
      Globals.initial).1.params_.objectives.clearance.enable = true ∧
    ∀ foot, ((ValidityCheckerFeet.ctor (paramsUnit true false)
      Globals.initial).1.gridList foot).get? 4 = some foot :=
  ⟨rfl, (isValid_graded_probes_centre ccFree (ValidityCheckerFeet.ctor (paramsUnit true false)
    Globals.initial).1 mapEverywhere poseOrigin Globals.initial rfl).1⟩

/-! ## C13: the box built by the constructor -/

/-- C13: the constructor derives the foot box from the configured reach: with clearance
disabled `box_length_ = reach.x` and `box_width_ = reach.y`, with clearance enabled
`box_length_ = reach.x / 3` and `box_width_ = reach.y / 3`; in both cases the checker is
built with exactly this length and width and with height `reach.z` (and no map is bound). -/
theorem ctor_box (params : Params) (g : Globals) :
    (ValidityCheckerFeet.ctor params g).1.box_length_ =
      (if params.objectives.clearance.enable then params.robot.feet.reach.x / 3
        else params.robot.feet.reach.x) ∧
    (ValidityCheckerFeet.ctor params g).1.box_width_ =
      (if params.objectives.clearance.enable then params.robot.feet.reach.y / 3
        else params.robot.feet.reach.y) ∧
    (ValidityCheckerFeet.ctor params g).1.checker_.length =
      (ValidityCheckerFeet.ctor params g).1.box_length_ ∧
    (ValidityCheckerFeet.ctor params g).1.checker_.width =
      (ValidityCheckerFeet.ctor params g).1.box_width_ ∧
    (ValidityCheckerFeet.ctor params g).1.checker_.height = params.robot.feet.reach.z ∧
    (ValidityCheckerFeet.ctor params g).1.params_ = params ∧
    (ValidityCheckerFeet.ctor params g).1.hasMap = false := by
  cases hen : params.objectives.clearance.enable <;>
    simp [ValidityCheckerFeet.ctor, hen, kNLongSplit, kNLatSplit, ValidityCheckerFeet.hasMap]

/-! ## C14: `setMap` and `updateHeightField` -/

/-- C14: `setMap` alone changes only the map handle: the checker, with its height snapshot,
and the other members are unchanged. After `setMap(m)` followed by `updateHeightField()` the
snapshot of the checker is the layer "elevation_masked" of `m`, the box of the checker is
unchanged, and `boxIsValidAtPose` on a pose inside `m` returns the verdict of the checker
holding this snapshot: neither the map bound before nor the former snapshot enters the
result. -/
theorem setMap_updateHeightField (cc : CollisionFn) (self : ValidityCheckerFeet)
    (m : TerrainMap) (pose : Pose3) (g : Globals)
    (hin : m.isInside pose.translation.x pose.translation.y = true) :
    (self.setMap (some m)).checker_ = self.checker_ ∧
    (self.setMap (some m)).params_ = self.params_ ∧
    (self.setMap (some m)).box_length_ = self.box_length_ ∧
    (self.setMap (some m)).box_width_ = self.box_width_ ∧
    (self.setMap (some m)).traversability_map_ = some m ∧
    ∃ self1, (self.setMap (some m)).updateHeightField = some self1 ∧
      self1.traversability_map_ = some m ∧
      self1.checker_ =
        ⟨self.checker_.length, self.checker_.width, self.checker_.height,
          some (m.layer "elevation_masked")⟩ ∧
      (self1.boxIsValidAtPose cc pose g).map Prod.fst =
        some (cc ⟨self.checker_.length, self.checker_.width, self.checker_.height,
          some (m.layer "elevation_masked")⟩ [writeScratch g.d_pose pose]) := by
  refine ⟨rfl, rfl, rfl, rfl, rfl, _, rfl, rfl, rfl, ?_⟩
  simp [ValidityCheckerFeet.boxIsValidAtPose, ValidityCheckerFeet.setMap,
    HeightMapBoxChecker.setHeightField, hin]

/-- Witness of C14: the evaluator built from `paramsUnit`, first bound to `mapNowhere`, then
rebound to `mapEverywhere` and refreshed. -/
theorem setMap_updateHeightField_witness :
    mapEverywhere.isInside poseOrigin.translation.x poseOrigin.translation.y = true ∧
    ∃ self1, ((((ValidityCheckerFeet.ctor (paramsUnit false false) Globals.initial).1.setMap
        (some mapNowhere)).setMap (some mapEverywhere)).updateHeightField) = some self1 ∧
      self1.traversability_map_ = some mapEverywhere :=
  ⟨rfl, (setMap_updateHeightField ccFree
    ((ValidityCheckerFeet.ctor (paramsUnit false false) Globals.initial).1.setMap
      (some mapNowhere)) mapEverywhere poseOrigin Globals.initial rfl).2.2.2.2.2.imp
      fun _ h => ⟨h.1, h.2.1⟩⟩

/-! ## Facts on the verdicts that involve no arithmetic on weights -/

/-- The poses of the stencil of `getClearance` are, as a set, the poses of the grid of
`isValid`. -/
theorem stencil_mem_iff_gridList (self : ValidityCheckerFeet) (foot : Pose3) (c l t d : ℚ)
    (p : Pose3) :
    p ∈ (self.stencil foot c l t d).map Prod.fst ↔ p ∈ self.gridList foot := by
  simp only [gridList_eq, ValidityCheckerFeet.stencil, ValidityCheckerFeet.gridPose,
    List.map_cons, List.map_nil, List.mem_cons, List.mem_singleton, List.not_mem_nil,
    or_false, Int.cast_neg, Int.cast_one, Int.cast_zero, mul_neg, mul_one, mul_zero,
    Pose3.mul_fromXYZ_zero]
  tauto

/-- In graded mode, with a map bound, when `isValid` returns `false` some foot pose has
`boxIsValidAtPose` false at every pose of the stencil of `getClearance`. -/
theorem isValid_false_some_foot_invalid (cc : CollisionFn) (self : ValidityCheckerFeet)
    (m : TerrainMap) (pose : Pose3) (g : Globals) (c l t d : ℚ)
    (hen : self.params_.objectives.clearance.enable = true)
    (hfalse : ((self.setMap (some m)).isValid cc pose g).map Prod.fst = some false) :
    ∃ foot ∈ self.footPoses pose, ∀ pw ∈ self.stencil foot c l t d,
      ((self.setMap (some m)).boxIsValidAtPose cc pw.1 g).map Prod.fst = some false := by
  obtain ⟨g1, hrun, -, -⟩ :=
    footLoop_trace cc (self.setMap (some m)) m rfl ((self.setMap (some m)).footPoses pose) g
  have hen1 : (self.setMap (some m)).params_.objectives.clearance.enable = true := hen
  simp only [ValidityCheckerFeet.isValid, hen1, if_true, hrun, Option.map_some',
    Option.some.injEq] at hfalse
  obtain ⟨foot, hfoot, hany⟩ := List.all_eq_false.mp hfalse
  refine ⟨foot, hfoot, fun pw hpw => ?_⟩
  rw [← boxVerdict_eq_false_iff cc (self.setMap (some m)) m rfl]
  have hgrid := List.any_eq_false.mp (by simpa using hany) pw.1
    ((stencil_mem_iff_gridList (self.setMap (some m)) foot c l t d pw.1).mp
      (List.mem_map_of_mem _ hpw))
  simpa using hgrid

/-- The verdict of `isValid` is monotone in the verdict of `boxIsValidAtPose`, in binary mode
and in graded mode: for one evaluator in two environments (maps `m1`, `m2`, checkers `cc1`,
`cc2`) such that every pose valid in the first is valid in the second, `isValid` true in the
first implies `isValid` true in the second. -/
theorem isValid_monotone (cc1 cc2 : CollisionFn) (self : ValidityCheckerFeet)
    (m1 m2 : TerrainMap) (pose : Pose3) (g : Globals)
    (hle : ∀ p, ((self.setMap (some m1)).boxIsValidAtPose cc1 p g).map Prod.fst = some true →
      ((self.setMap (some m2)).boxIsValidAtPose cc2 p g).map Prod.fst = some true)
    (h1 : ((self.setMap (some m1)).isValid cc1 pose g).map Prod.fst = some true) :
    ((self.setMap (some m2)).isValid cc2 pose g).map Prod.fst = some true := by
  have hv : ∀ p, (self.setMap (some m1)).boxVerdict cc1 g p = true →
      (self.setMap (some m2)).boxVerdict cc2 g p = true := by
    intro p hp
    rw [boxVerdict_eq_true_iff cc2 _ m2 rfl]
    exact hle p ((boxVerdict_eq_true_iff cc1 _ m1 rfl g p).mp hp)
  by_cases hen : self.params_.objectives.clearance.enable = true
  · have hen1 : (self.setMap (some m1)).params_.objectives.clearance.enable = true := hen
    have hen2 : (self.setMap (some m2)).params_.objectives.clearance.enable = true := hen
    obtain ⟨e1, hr1, -, -⟩ := footLoop_trace cc1 (self.setMap (some m1)) m1 rfl
      ((self.setMap (some m1)).footPoses pose) g
    obtain ⟨e2, hr2, -, -⟩ := footLoop_trace cc2 (self.setMap (some m2)) m2 rfl
      ((self.setMap (some m2)).footPoses pose) g
    simp only [ValidityCheckerFeet.isValid, hen1, if_true, hr1, Option.map_some',
      Option.some.injEq] at h1
    simp only [ValidityCheckerFeet.isValid, hen2, if_true, hr2, Option.map_some',
      Option.some.injEq]
    rw [List.all_eq_true] at h1 ⊢
    intro foot hfoot
    have h2 := h1 foot hfoot
    rw [List.any_eq_true] at h2 ⊢
    obtain ⟨p, hp, hvp⟩ := h2
    exact ⟨p, hp, hv p hvp⟩
  · have hen0 : self.params_.objectives.clearance.enable = false := by simpa using hen
    have hen1 : (self.setMap (some m1)).params_.objectives.clearance.enable = false := hen0
    have hen2 : (self.setMap (some m2)).params_.objectives.clearance.enable = false := hen0
    obtain ⟨e1, hr1, -, -⟩ := boxesLoop_run cc1 (self.setMap (some m1)) m1 rfl
      ((self.setMap (some m1)).footPoses pose) g
    obtain ⟨e2, hr2, -, -⟩ := boxesLoop_run cc2 (self.setMap (some m2)) m2 rfl
      ((self.setMap (some m2)).footPoses pose) g
    simp only [ValidityCheckerFeet.isValid, hen1, ValidityCheckerFeet.boxesAreValidAtPoses,
      hr1, Option.map_some', Option.some.injEq, Bool.false_eq_true, if_false] at h1
    simp only [ValidityCheckerFeet.isValid, hen2, ValidityCheckerFeet.boxesAreValidAtPoses,
      hr2, Option.map_some', Option.some.injEq, Bool.false_eq_true, if_false]
    rw [List.all_eq_true] at h1 ⊢
    exact fun foot hfoot => hv foot (h1 foot hfoot)

end art_planner
